import Mathlib

/-!
Verification of the resilient dual-provider data-access layer of the
degen-pinolearn-info repository.

The embedding covers:
* the cache failover router (`src/pinolearn/unified-redis.ts`,
  class `UnifiedRedis`): per-provider circuit breaker, the twelve
  public cache operations with their primary-then-secondary failover,
  value serialization, health status and health-check probe;
* the data-store failover router (`src/unnamed/part_005`, the unified
  database client): its stored `ProviderHealth` circuit-breaker state
  machine and the unconditional `$disconnect`.

Machine integers (`Date.now()` timestamps, counters) are modelled as
`Nat`; JavaScript exceptions are modelled with `Except`; the mutable
fields of the singleton objects are threaded explicitly as state.
-/

set_option autoImplicit false

/-- JSON-like values handled by the cache layer (the `any` values passed
to `set`/`setex` and produced by `get`).  The modelled fragment is:
strings without escape sequences, integers, booleans, `null`, and
objects; this is the fragment exercised by the spec's scenarios. -/
inductive RVal where
  | str : String → RVal
  | num : Int → RVal
  | bool : Bool → RVal
  | jnull : RVal
  | obj : List (String × RVal) → RVal

mutual

/-- `JSON.stringify` on the modelled value fragment (no escaping is
performed because modelled strings contain no characters that would
need escaping). -/
def jsonStringify : RVal → String
  | RVal.str s => "\"" ++ s ++ "\""
  | RVal.num n => toString n
  | RVal.bool b => if b then "true" else "false"
  | RVal.jnull => "null"
  | RVal.obj fs => "\x7b" ++ stringifyFields fs ++ "\x7d"

/-- Serializes the member list of a JSON object, comma separated. -/
def stringifyFields : List (String × RVal) → String
  | [] => ""
  | [(k, v)] => "\"" ++ k ++ "\":" ++ jsonStringify v
  | (k, v) :: rest =>
      "\"" ++ k ++ "\":" ++ jsonStringify v ++ "," ++ stringifyFields rest

end

/-- Reads the body of a JSON string literal up to the closing quote,
returning the content and the remaining input. -/
def parseStringBody : List Char → Option (List Char × List Char)
  | [] => none
  | c :: rest =>
    if c = '\"' then some ([], rest)
    else
      match parseStringBody rest with
      | some (s, r) => some (c :: s, r)
      | none => none

/-- Splits the longest prefix of decimal digits off the input. -/
def takeDigits : List Char → (List Char × List Char)
  | [] => ([], [])
  | c :: rest =>
    if c.isDigit then
      let p := takeDigits rest
      (c :: p.fst, p.snd)
    else ([], c :: rest)

/-- Numeric value of a list of decimal digits. -/
def digitsToNat (ds : List Char) : Nat :=
  ds.foldl (fun acc c => acc * 10 + (c.toNat - 48)) 0

/-- Reads a JSON integer (optional minus sign, then digits). -/
def parseNumber : List Char → Option (Int × List Char)
  | '-' :: rest =>
    match takeDigits rest with
    | ([], _) => none
    | (ds, r) => some (-(Int.ofNat (digitsToNat ds)), r)
  | cs =>
    match takeDigits cs with
    | ([], _) => none
    | (ds, r) => some (Int.ofNat (digitsToNat ds), r)

mutual

/-- Fueled recursive-descent parser for the modelled JSON fragment
(`JSON.parse` without whitespace handling).  Returns the parsed value
and the remaining input, or `none` on a syntax error. -/
def parseVal : Nat → List Char → Option (RVal × List Char)
  | 0, _ => none
  | _ + 1, [] => none
  | fuel + 1, c :: rest =>
    if c = '\"' then
      match parseStringBody rest with
      | some (s, r) => some (RVal.str (String.mk s), r)
      | none => none
    else if c = '\x7b' then
      parseMembers fuel rest
    else if c = 'n' then
      match rest with
      | 'u' :: 'l' :: 'l' :: r => some (RVal.jnull, r)
      | _ => none
    else if c = 't' then
      match rest with
      | 'r' :: 'u' :: 'e' :: r => some (RVal.bool true, r)
      | _ => none
    else if c = 'f' then
      match rest with
      | 'a' :: 'l' :: 's' :: 'e' :: r => some (RVal.bool false, r)
      | _ => none
    else
      match parseNumber (c :: rest) with
      | some (n, r) => some (RVal.num n, r)
      | none => none

/-- Parses the members of a JSON object, the opening brace already
consumed; produces the object value. -/
def parseMembers : Nat → List Char → Option (RVal × List Char)
  | 0, _ => none
  | _ + 1, [] => none
  | fuel + 1, c :: rest =>
    if c = '\x7d' then some (RVal.obj [], rest)
    else
      match parsePair fuel (c :: rest) with
      | some (kv, r) =>
        match parseMoreMembers fuel r with
        | some (fs, r2) => some (RVal.obj (kv :: fs), r2)
        | none => none
      | none => none

/-- Parses one `"key":value` member. -/
def parsePair : Nat → List Char → Option ((String × RVal) × List Char)
  | 0, _ => none
  | _ + 1, [] => none
  | fuel + 1, c :: rest =>
    if c = '\"' then
      match parseStringBody rest with
      | some (k, r) =>
        match r with
        | ':' :: r2 =>
          match parseVal fuel r2 with
          | some (v, r3) => some ((String.mk k, v), r3)
          | none => none
        | _ => none
      | none => none
    else none

/-- Parses the `, "key":value`-repetition tail of an object, ending at
the closing brace. -/
def parseMoreMembers : Nat → List Char → Option (List (String × RVal) × List Char)
  | 0, _ => none
  | _ + 1, [] => none
  | fuel + 1, c :: rest =>
    if c = ',' then
      match parsePair fuel rest with
      | some (kv, r) =>
        match parseMoreMembers fuel r with
        | some (fs, r2) => some (kv :: fs, r2)
        | none => none
      | none => none
    else if c = '\x7d' then some ([], rest)
    else none

end

/-- `JSON.parse`: succeeds only when the whole input is consumed. -/
def jsonParse (s : String) : Option RVal :=
  match parseVal (s.length * 4 + 4) s.data with
  | some (v, []) => some v
  | _ => none

/-- The `try JSON.parse catch return raw` pattern of the Azure read
path (`unified-redis.ts` lines 305-309). -/
def tryDecode (s : String) : RVal :=
  match jsonParse s with
  | some v => v
  | none => RVal.str s

/-- `typeof value === 'string' ? value : JSON.stringify(value)`
(`unified-redis.ts` lines 328 and 534). -/
def stringValue : RVal → String
  | RVal.str s => s
  | v => jsonStringify v

/-! ## Circuit breaker of the cache router (`unified-redis.ts`) -/

/-- The two real cache providers tracked by the breaker. -/
inductive CacheProvider where
  | upstash : CacheProvider
  | azure : CacheProvider
deriving DecidableEq, Repr

/-- `FailureTracker` (`unified-redis.ts` lines 54-59): per-provider
failure counter and last-failure timestamp. -/
structure FailureTracker where
  upstash : Nat
  azure : Nat
  lastUpstashFailure : Nat
  lastAzureFailure : Nat
deriving DecidableEq, Repr

/-- `MAX_FAILURES` (line 77). -/
def MAX_FAILURES : Nat := 3

/-- `FAILURE_RESET_TIME` (line 78), one minute in milliseconds. -/
def FAILURE_RESET_TIME : Nat := 60000

/-- `this.failures[provider]`. -/
def FailureTracker.count (f : FailureTracker) : CacheProvider → Nat
  | CacheProvider.upstash => f.upstash
  | CacheProvider.azure => f.azure

/-- `this.failures[provider === 'upstash' ? 'lastUpstashFailure' : 'lastAzureFailure']`. -/
def FailureTracker.lastF (f : FailureTracker) : CacheProvider → Nat
  | CacheProvider.upstash => f.lastUpstashFailure
  | CacheProvider.azure => f.lastAzureFailure

/-- `recordFailure` (lines 232-241): increments the provider's counter
and stamps the current time. -/
def recordFailure (now : Nat) (p : CacheProvider) (f : FailureTracker) : FailureTracker :=
  match p with
  | CacheProvider.upstash => { f with upstash := f.upstash + 1, lastUpstashFailure := now }
  | CacheProvider.azure => { f with azure := f.azure + 1, lastAzureFailure := now }

/-- `resetFailures` (lines 246-248): zeroes the provider's counter. -/
def resetFailures (p : CacheProvider) (f : FailureTracker) : FailureTracker :=
  match p with
  | CacheProvider.upstash => { f with upstash := 0 }
  | CacheProvider.azure => { f with azure := 0 }

/-- `isProviderAvailable` (lines 253-274): available while the counter
is under `MAX_FAILURES`; once at or over the threshold, available (with
the counter reset) only when more than `FAILURE_RESET_TIME` has elapsed
since the last failure.  Returns the availability verdict together with
the possibly-updated tracker (the reset is a side effect in the source). -/
def isProviderAvailable (now : Nat) (p : CacheProvider) (f : FailureTracker) :
    Bool × FailureTracker :=
  if f.count p < MAX_FAILURES then (true, f)
  else if FAILURE_RESET_TIME < now - f.lastF p then (true, resetFailures p f)
  else (false, f)

/-! ## Cache provider clients

The provider driver libraries (`@upstash/redis`, `ioredis`) are external
to the repository; they are modelled as string-keyed stores.  The Azure
(ioredis) driver stores and returns plain strings, exactly as the calls
in `unified-redis.ts` assume.  The value envelope of the Upstash driver
is modelled from the spec (see `upEncode`). -/

/-- Inserts or replaces a binding in an association list. -/
def assocInsert {β : Type} (k : String) (v : β) (l : List (String × β)) :
    List (String × β) :=
  (k, v) :: l.filter (fun p => p.fst != k)

/-- State of one provider driver: whether every call currently throws,
its key-value store (values as transported text), its sets, its TTL
bookkeeping and an opaque script-evaluation result. -/
structure ClientState where
  failing : Bool
  store : List (String × String)
  sets : List (String × List String)
  ttls : List (String × Int)
  evalResult : RVal

/-- ioredis `get`: the raw stored string, or null. -/
def azGet (c : ClientState) (k : String) : Option String :=
  List.lookup k c.store

/-- ioredis `set`. -/
def azSet (c : ClientState) (k v : String) : ClientState :=
  { c with store := assocInsert k v c.store }

/-- ioredis `setex`: stores the value and records the expiry. -/
def azSetex (c : ClientState) (k : String) (secs : Nat) (v : String) : ClientState :=
  { c with store := assocInsert k v c.store,
           ttls := assocInsert k (Int.ofNat secs) c.ttls }

/-- Redis `DEL`: removes the keys, returning how many existed. -/
def azDel (c : ClientState) (ks : List String) : Nat × ClientState :=
  ((ks.filter (fun k => (List.lookup k c.store).isSome)).length,
   { c with store := c.store.filter (fun p => !(ks.contains p.fst)),
            ttls := c.ttls.filter (fun p => !(ks.contains p.fst)) })

/-- Parses a stored string as an integer (for `INCR`). -/
def parseIntString (s : String) : Option Int :=
  match parseNumber s.data with
  | some (n, []) => some n
  | _ => none

/-- Redis `INCR`: missing keys count from zero. -/
def azIncr (c : ClientState) (k : String) : Int × ClientState :=
  let cur := match azGet c k with
    | some s => (parseIntString s).getD 0
    | none => 0
  (cur + 1, azSet c k (toString (cur + 1)))

/-- Redis `EXPIRE`: 1 when the key exists, else 0. -/
def azExpire (c : ClientState) (k : String) (secs : Nat) : Nat × ClientState :=
  if (azGet c k).isSome then
    (1, { c with ttls := assocInsert k (Int.ofNat secs) c.ttls })
  else (0, c)

/-- Redis `TTL`: -2 for a missing key, -1 for a key without expiry. -/
def azTtl (c : ClientState) (k : String) : Int :=
  if (azGet c k).isSome then (List.lookup k c.ttls).getD (-1) else -2

/-- Redis `EXISTS`. -/
def azExists (c : ClientState) (k : String) : Nat :=
  if (azGet c k).isSome then 1 else 0

/-- Redis `KEYS` (simplified glob: `*` matches everything, any other
pattern matches only the identical key). -/
def azKeys (c : ClientState) (pattern : String) : List String :=
  if pattern = "*" then c.store.map Prod.fst
  else (c.store.map Prod.fst).filter (fun k => k == pattern)

/-- Redis `SADD`: returns how many members were newly added. -/
def azSadd (c : ClientState) (k : String) (members : List String) : Nat × ClientState :=
  let cur := (List.lookup k c.sets).getD []
  let toAdd := (members.eraseDups).filter (fun m => !(cur.contains m))
  (toAdd.length, { c with sets := assocInsert k (cur ++ toAdd) c.sets })

/-- Redis `SREM`: returns how many members were removed. -/
def azSrem (c : ClientState) (k : String) (members : List String) : Nat × ClientState :=
  let cur := (List.lookup k c.sets).getD []
  let removed := (members.eraseDups).filter (fun m => cur.contains m)
  (removed.length,
   { c with sets := assocInsert k (cur.filter (fun m => !(members.contains m))) c.sets })

/-- Modelled from the spec: the Upstash driver's value envelope is
missing from the repository (it lives in the external `@upstash/redis`
library); per spec section 3, the "logical value is always serialized
to a provider-agnostic text form before being written to either
provider", JSON-encoded "unless already textual" (section 4.3). -/
def upEncode : RVal → String
  | RVal.str s => s
  | v => jsonStringify v

/-- Upstash driver `get`: the stored text decoded back to a value
(JSON when it parses, verbatim otherwise); `none` is JavaScript null. -/
def upGet (c : ClientState) (k : String) : Option RVal :=
  (azGet c k).map tryDecode

/-- Upstash driver `set` as invoked on line 335/337: receives the raw
value and transports its encoded text. -/
def upSet (c : ClientState) (k : String) (v : RVal) : ClientState :=
  azSet c k (upEncode v)

/-- Upstash driver `setex` as invoked on line 539. -/
def upSetex (c : ClientState) (k : String) (secs : Nat) (v : RVal) : ClientState :=
  azSetex c k secs (upEncode v)

/-- Both provider backends. -/
structure CacheWorld where
  upstash : ClientState
  azure : ClientState

/-! ## The unified cache router state and operations -/

/-- `RedisProvider` (`unified-redis.ts` line 49). -/
inductive RedisProvider where
  | upstash : RedisProvider
  | azure : RedisProvider
  | mock : RedisProvider
  | noneP : RedisProvider
deriving DecidableEq, Repr

/-- The `NODE_ENV` distinction consulted by the write fallbacks. -/
inductive Env where
  | production : Env
  | development : Env
deriving DecidableEq, Repr

/-- The exceptions thrown by the router when every provider failed:
`new Error('Redis unavailable')` (line 367) and the EVAL failure
(line 627). -/
inductive CacheErr where
  | redisUnavailable : CacheErr
  | evalFailed : CacheErr
deriving DecidableEq, Repr

/-- One invocation of a provider driver, recording the argument exactly
as the router passes it: the Upstash driver receives the raw value
(lines 335/337/539), the Azure driver receives the pre-encoded string
(lines 352/354). -/
inductive DriverCall where
  | upstashGet (k : String)
  | upstashSet (k : String) (v : RVal) (ex : Option Nat)
  | upstashSetex (k : String) (secs : Nat) (v : RVal)
  | azureGet (k : String)
  | azureSet (k : String) (v : String)
  | azureSetex (k : String) (secs : Nat) (v : String)

/-- Mutable fields of the `UnifiedRedis` singleton: which clients were
created (non-null), the active provider chosen at construction, and
the failure tracker. -/
structure RedisState where
  upstashConfigured : Bool
  azureConfigured : Bool
  activeProvider : RedisProvider
  failures : FailureTracker

/-- The provider selection of `initialize` (lines 110-119) followed by
a fresh `FailureTracker` (lines 69-74). -/
def initState (upstashConfigured azureConfigured : Bool) : RedisState :=
  { upstashConfigured := upstashConfigured,
    azureConfigured := azureConfigured,
    activeProvider :=
      if upstashConfigured then RedisProvider.upstash
      else if azureConfigured then RedisProvider.azure
      else RedisProvider.mock,
    failures := { upstash := 0, azure := 0, lastUpstashFailure := 0, lastAzureFailure := 0 } }

/-- `getActiveProvider` (lines 701-703). -/
def getActiveProvider (s : RedisState) : RedisProvider :=
  s.activeProvider

/-- Azure leg and fallback of `get` (lines 297-321): on success the
failure count is reset before the falsy check on the value, then the
string is JSON-decoded with a verbatim fallback; on failure or
unavailability the router returns `null`. -/
def ugetAzure (now : Nat) (w : CacheWorld) (s : RedisState) (k : String)
    (f : FailureTracker) (t : List DriverCall) :
    Except CacheErr (Option RVal) × RedisState × List DriverCall :=
  if s.azureConfigured then
    let av := isProviderAvailable now CacheProvider.azure f
    if av.fst then
      if w.azure.failing then
        (Except.ok none, { s with failures := recordFailure now CacheProvider.azure av.snd },
         t ++ [DriverCall.azureGet k])
      else
        let f2 := resetFailures CacheProvider.azure av.snd
        match azGet w.azure k with
        | none => (Except.ok none, { s with failures := f2 }, t ++ [DriverCall.azureGet k])
        | some sv =>
          if sv = "" then
            (Except.ok none, { s with failures := f2 }, t ++ [DriverCall.azureGet k])
          else
            (Except.ok (some (tryDecode sv)), { s with failures := f2 },
             t ++ [DriverCall.azureGet k])
    else (Except.ok none, { s with failures := av.snd }, t)
  else (Except.ok none, { s with failures := f }, t)

/-- `get` (lines 283-322): Upstash first when configured and available,
then Azure, then the `null` fallback.  Also returns the driver calls
that were issued. -/
def uget (now : Nat) (w : CacheWorld) (s : RedisState) (k : String) :
    Except CacheErr (Option RVal) × RedisState × List DriverCall :=
  if s.upstashConfigured then
    let av := isProviderAvailable now CacheProvider.upstash s.failures
    if av.fst then
      if w.upstash.failing then
        ugetAzure now w s k (recordFailure now CacheProvider.upstash av.snd)
          [DriverCall.upstashGet k]
      else
        (Except.ok (upGet w.upstash k),
         { s with failures := resetFailures CacheProvider.upstash av.snd },
         [DriverCall.upstashGet k])
    else ugetAzure now w s k av.snd []
  else ugetAzure now w s k s.failures []

/-- The both-failed outcome of `set` (lines 364-370): throw in
production, report the `'OK'` sentinel in development. -/
def usetFallback (env : Env) (s : RedisState) (f : FailureTracker) (w : CacheWorld)
    (t : List DriverCall) :
    Except CacheErr String × RedisState × CacheWorld × List DriverCall :=
  match env with
  | Env.production => (Except.error CacheErr.redisUnavailable, { s with failures := f }, w, t)
  | Env.development => (Except.ok "OK", { s with failures := f }, w, t)

/-- Azure leg of `set` (lines 348-362): the pre-encoded `stringValue`
is sent, via `setex` when a truthy `ex` option is present. -/
def usetAzure (now : Nat) (env : Env) (w : CacheWorld) (s : RedisState) (k : String)
    (v : RVal) (ex : Option Nat) (f : FailureTracker) (t : List DriverCall) :
    Except CacheErr String × RedisState × CacheWorld × List DriverCall :=
  if s.azureConfigured then
    let av := isProviderAvailable now CacheProvider.azure f
    if av.fst then
      let call := match ex with
        | some (e + 1) => DriverCall.azureSetex k (e + 1) (stringValue v)
        | _ => DriverCall.azureSet k (stringValue v)
      if w.azure.failing then
        usetFallback env s (recordFailure now CacheProvider.azure av.snd) w (t ++ [call])
      else
        let c2 := match ex with
          | some (e + 1) => azSetex w.azure k (e + 1) (stringValue v)
          | _ => azSet w.azure k (stringValue v)
        (Except.ok "OK", { s with failures := resetFailures CacheProvider.azure av.snd },
         { w with azure := c2 }, t ++ [call])
    else usetFallback env s av.snd w t
  else usetFallback env s f w t

/-- `set` (lines 327-371).  The Upstash driver receives the raw value
`v`, not the encoded `stringValue` (lines 335/337); `options?.ex` is a
truthiness check, so `ex = 0` behaves like no expiry. -/
def uset (now : Nat) (env : Env) (w : CacheWorld) (s : RedisState) (k : String)
    (v : RVal) (ex : Option Nat) :
    Except CacheErr String × RedisState × CacheWorld × List DriverCall :=
  if s.upstashConfigured then
    let av := isProviderAvailable now CacheProvider.upstash s.failures
    if av.fst then
      let exT := match ex with
        | some (e + 1) => some (e + 1)
        | _ => (none : Option Nat)
      if w.upstash.failing then
        usetAzure now env w s k v ex (recordFailure now CacheProvider.upstash av.snd)
          [DriverCall.upstashSet k v exT]
      else
        let c2 := match ex with
          | some (e + 1) => upSetex w.upstash k (e + 1) v
          | _ => upSet w.upstash k v
        (Except.ok "OK", { s with failures := resetFailures CacheProvider.upstash av.snd },
         { w with upstash := c2 }, [DriverCall.upstashSet k v exT])
    else usetAzure now env w s k v ex av.snd []
  else usetAzure now env w s k v ex s.failures []

/-- Azure leg and fallback of `del` (lines 392-403): the fallback
returns 0 without any production-mode throw. -/
def udelAzure (now : Nat) (w : CacheWorld) (s : RedisState) (ks : List String)
    (f : FailureTracker) : Except CacheErr Nat × RedisState × CacheWorld :=
  if s.azureConfigured then
    let av := isProviderAvailable now CacheProvider.azure f
    if av.fst then
      if w.azure.failing then
        (Except.ok 0, { s with failures := recordFailure now CacheProvider.azure av.snd }, w)
      else
        let r := azDel w.azure ks
        (Except.ok r.fst, { s with failures := resetFailures CacheProvider.azure av.snd },
         { w with azure := r.snd })
    else (Except.ok 0, { s with failures := av.snd }, w)
  else (Except.ok 0, { s with failures := f }, w)

/-- `del` (lines 376-404), the key argument already normalized to a
list as by `Array.isArray(key) ? key : [key]`. -/
def udel (now : Nat) (w : CacheWorld) (s : RedisState) (key : List String) :
    Except CacheErr Nat × RedisState × CacheWorld :=
  if s.upstashConfigured then
    let av := isProviderAvailable now CacheProvider.upstash s.failures
    if av.fst then
      if w.upstash.failing then
        udelAzure now w s key (recordFailure now CacheProvider.upstash av.snd)
      else
        let r := azDel w.upstash key
        (Except.ok r.fst, { s with failures := resetFailures CacheProvider.upstash av.snd },
         { w with upstash := r.snd })
    else udelAzure now w s key av.snd
  else udelAzure now w s key s.failures

/-- Azure leg and fallback of `incr` (lines 422-434): fallback 0. -/
def uincrAzure (now : Nat) (w : CacheWorld) (s : RedisState) (k : String)
    (f : FailureTracker) : Except CacheErr Int × RedisState × CacheWorld :=
  if s.azureConfigured then
    let av := isProviderAvailable now CacheProvider.azure f
    if av.fst then
      if w.azure.failing then
        (Except.ok 0, { s with failures := recordFailure now CacheProvider.azure av.snd }, w)
      else
        let r := azIncr w.azure k
        (Except.ok r.fst, { s with failures := resetFailures CacheProvider.azure av.snd },
         { w with azure := r.snd })
    else (Except.ok 0, { s with failures := av.snd }, w)
  else (Except.ok 0, { s with failures := f }, w)

/-- `incr` (lines 409-435). -/
def uincr (now : Nat) (w : CacheWorld) (s : RedisState) (k : String) :
    Except CacheErr Int × RedisState × CacheWorld :=
  if s.upstashConfigured then
    let av := isProviderAvailable now CacheProvider.upstash s.failures
    if av.fst then
      if w.upstash.failing then
        uincrAzure now w s k (recordFailure now CacheProvider.upstash av.snd)
      else
        let r := azIncr w.upstash k
        (Except.ok r.fst, { s with failures := resetFailures CacheProvider.upstash av.snd },
         { w with upstash := r.snd })
    else uincrAzure now w s k av.snd
  else uincrAzure now w s k s.failures

/-- Azure leg and fallback of `expire` (lines 453-465): fallback 0. -/
def uexpireAzure (now : Nat) (w : CacheWorld) (s : RedisState) (k : String) (secs : Nat)
    (f : FailureTracker) : Except CacheErr Nat × RedisState × CacheWorld :=
  if s.azureConfigured then
    let av := isProviderAvailable now CacheProvider.azure f
    if av.fst then
      if w.azure.failing then
        (Except.ok 0, { s with failures := recordFailure now CacheProvider.azure av.snd }, w)
      else
        let r := azExpire w.azure k secs
        (Except.ok r.fst, { s with failures := resetFailures CacheProvider.azure av.snd },
         { w with azure := r.snd })
    else (Except.ok 0, { s with failures := av.snd }, w)
  else (Except.ok 0, { s with failures := f }, w)

/-- `expire` (lines 440-466). -/
def uexpire (now : Nat) (w : CacheWorld) (s : RedisState) (k : String) (secs : Nat) :
    Except CacheErr Nat × RedisState × CacheWorld :=
  if s.upstashConfigured then
    let av := isProviderAvailable now CacheProvider.upstash s.failures
    if av.fst then
      if w.upstash.failing then
        uexpireAzure now w s k secs (recordFailure now CacheProvider.upstash av.snd)
      else
        let r := azExpire w.upstash k secs
        (Except.ok r.fst, { s with failures := resetFailures CacheProvider.upstash av.snd },
         { w with upstash := r.snd })
    else uexpireAzure now w s k secs av.snd
  else uexpireAzure now w s k secs s.failures

/-- Azure leg and fallback of `ttl` (lines 484-497): fallback -1. -/
def uttlAzure (now : Nat) (w : CacheWorld) (s : RedisState) (k : String)
    (f : FailureTracker) : Except CacheErr Int × RedisState :=
  if s.azureConfigured then
    let av := isProviderAvailable now CacheProvider.azure f
    if av.fst then
      if w.azure.failing then
        (Except.ok (-1), { s with failures := recordFailure now CacheProvider.azure av.snd })
      else
        (Except.ok (azTtl w.azure k),
         { s with failures := resetFailures CacheProvider.azure av.snd })
    else (Except.ok (-1), { s with failures := av.snd })
  else (Except.ok (-1), { s with failures := f })

/-- `ttl` (lines 471-497). -/
def uttl (now : Nat) (w : CacheWorld) (s : RedisState) (k : String) :
    Except CacheErr Int × RedisState :=
  if s.upstashConfigured then
    let av := isProviderAvailable now CacheProvider.upstash s.failures
    if av.fst then
      if w.upstash.failing then
        uttlAzure now w s k (recordFailure now CacheProvider.upstash av.snd)
      else
        (Except.ok (azTtl w.upstash k),
         { s with failures := resetFailures CacheProvider.upstash av.snd })
    else uttlAzure now w s k av.snd
  else uttlAzure now w s k s.failures

/-- Azure leg and fallback of `exists` (lines 515-527): fallback 0. -/
def uexistsAzure (now : Nat) (w : CacheWorld) (s : RedisState) (k : String)
    (f : FailureTracker) : Except CacheErr Nat × RedisState :=
  if s.azureConfigured then
    let av := isProviderAvailable now CacheProvider.azure f
    if av.fst then
      if w.azure.failing then
        (Except.ok 0, { s with failures := recordFailure now CacheProvider.azure av.snd })
      else
        (Except.ok (azExists w.azure k),
         { s with failures := resetFailures CacheProvider.azure av.snd })
    else (Except.ok 0, { s with failures := av.snd })
  else (Except.ok 0, { s with failures := f })

/-- `exists` (lines 502-528). -/
def uexists (now : Nat) (w : CacheWorld) (s : RedisState) (k : String) :
    Except CacheErr Nat × RedisState :=
  if s.upstashConfigured then
    let av := isProviderAvailable now CacheProvider.upstash s.failures
    if av.fst then
      if w.upstash.failing then
        uexistsAzure now w s k (recordFailure now CacheProvider.upstash av.snd)
      else
        (Except.ok (azExists w.upstash k),
         { s with failures := resetFailures CacheProvider.upstash av.snd })
    else uexistsAzure now w s k av.snd
  else uexistsAzure now w s k s.failures

/-- Azure leg and fallback of `setex` (lines 549-560): the fallback is
`'OK'` with no production-mode distinction. -/
def usetexAzure (now : Nat) (w : CacheWorld) (s : RedisState) (k : String) (secs : Nat)
    (v : RVal) (f : FailureTracker) (t : List DriverCall) :
    Except CacheErr String × RedisState × CacheWorld × List DriverCall :=
  if s.azureConfigured then
    let av := isProviderAvailable now CacheProvider.azure f
    if av.fst then
      if w.azure.failing then
        (Except.ok "OK", { s with failures := recordFailure now CacheProvider.azure av.snd },
         w, t ++ [DriverCall.azureSetex k secs (stringValue v)])
      else
        (Except.ok "OK", { s with failures := resetFailures CacheProvider.azure av.snd },
         { w with azure := azSetex w.azure k secs (stringValue v) },
         t ++ [DriverCall.azureSetex k secs (stringValue v)])
    else (Except.ok "OK", { s with failures := av.snd }, w, t)
  else (Except.ok "OK", { s with failures := f }, w, t)

/-- `setex` (lines 533-561): the Upstash driver receives the raw value
(line 539), the Azure driver the encoded `stringValue` (line 551). -/
def usetex (now : Nat) (w : CacheWorld) (s : RedisState) (k : String) (secs : Nat)
    (v : RVal) : Except CacheErr String × RedisState × CacheWorld × List DriverCall :=
  if s.upstashConfigured then
    let av := isProviderAvailable now CacheProvider.upstash s.failures
    if av.fst then
      if w.upstash.failing then
        usetexAzure now w s k secs v (recordFailure now CacheProvider.upstash av.snd)
          [DriverCall.upstashSetex k secs v]
      else
        (Except.ok "OK", { s with failures := resetFailures CacheProvider.upstash av.snd },
         { w with upstash := upSetex w.upstash k secs v },
         [DriverCall.upstashSetex k secs v])
    else usetexAzure now w s k secs v av.snd []
  else usetexAzure now w s k secs v s.failures []

/-- Azure leg and fallback of `keys` (lines 579-591): fallback `[]`. -/
def ukeysAzure (now : Nat) (w : CacheWorld) (s : RedisState) (pattern : String)
    (f : FailureTracker) : Except CacheErr (List String) × RedisState :=
  if s.azureConfigured then
    let av := isProviderAvailable now CacheProvider.azure f
    if av.fst then
      if w.azure.failing then
        (Except.ok [], { s with failures := recordFailure now CacheProvider.azure av.snd })
      else
        (Except.ok (azKeys w.azure pattern),
         { s with failures := resetFailures CacheProvider.azure av.snd })
    else (Except.ok [], { s with failures := av.snd })
  else (Except.ok [], { s with failures := f })

/-- `keys` (lines 566-592). -/
def ukeys (now : Nat) (w : CacheWorld) (s : RedisState) (pattern : String) :
    Except CacheErr (List String) × RedisState :=
  if s.upstashConfigured then
    let av := isProviderAvailable now CacheProvider.upstash s.failures
    if av.fst then
      if w.upstash.failing then
        ukeysAzure now w s pattern (recordFailure now CacheProvider.upstash av.snd)
      else
        (Except.ok (azKeys w.upstash pattern),
         { s with failures := resetFailures CacheProvider.upstash av.snd })
    else ukeysAzure now w s pattern av.snd
  else ukeysAzure now w s pattern s.failures

/-- Azure leg and fallback of `eval` (lines 612-629): throws in
production, returns `null` in development.  The script result itself is
opaque to the router and modelled by the client's `evalResult`. -/
def uevalAzure (now : Nat) (env : Env) (w : CacheWorld) (s : RedisState)
    (f : FailureTracker) : Except CacheErr (Option RVal) × RedisState :=
  if s.azureConfigured then
    let av := isProviderAvailable now CacheProvider.azure f
    if av.fst then
      if w.azure.failing then
        let f2 := recordFailure now CacheProvider.azure av.snd
        match env with
        | Env.production => (Except.error CacheErr.evalFailed, { s with failures := f2 })
        | Env.development => (Except.ok none, { s with failures := f2 })
      else
        (Except.ok (some w.azure.evalResult),
         { s with failures := resetFailures CacheProvider.azure av.snd })
    else
      match env with
      | Env.production => (Except.error CacheErr.evalFailed, { s with failures := av.snd })
      | Env.development => (Except.ok none, { s with failures := av.snd })
  else
    match env with
    | Env.production => (Except.error CacheErr.evalFailed, { s with failures := f })
    | Env.development => (Except.ok none, { s with failures := f })

/-- `eval` (lines 598-630). -/
def ueval (now : Nat) (env : Env) (w : CacheWorld) (s : RedisState) :
    Except CacheErr (Option RVal) × RedisState :=
  if s.upstashConfigured then
    let av := isProviderAvailable now CacheProvider.upstash s.failures
    if av.fst then
      if w.upstash.failing then
        uevalAzure now env w s (recordFailure now CacheProvider.upstash av.snd)
      else
        (Except.ok (some w.upstash.evalResult),
         { s with failures := resetFailures CacheProvider.upstash av.snd })
    else uevalAzure now env w s av.snd
  else uevalAzure now env w s s.failures

/-- Azure leg and fallback of `sadd` (lines 648-660): fallback 0. -/
def usaddAzure (now : Nat) (w : CacheWorld) (s : RedisState) (k : String)
    (members : List String) (f : FailureTracker) :
    Except CacheErr Nat × RedisState × CacheWorld :=
  if s.azureConfigured then
    let av := isProviderAvailable now CacheProvider.azure f
    if av.fst then
      if w.azure.failing then
        (Except.ok 0, { s with failures := recordFailure now CacheProvider.azure av.snd }, w)
      else
        let r := azSadd w.azure k members
        (Except.ok r.fst, { s with failures := resetFailures CacheProvider.azure av.snd },
         { w with azure := r.snd })
    else (Except.ok 0, { s with failures := av.snd }, w)
  else (Except.ok 0, { s with failures := f }, w)

/-- `sadd` (lines 635-661). -/
def usadd (now : Nat) (w : CacheWorld) (s : RedisState) (k : String)
    (members : List String) : Except CacheErr Nat × RedisState × CacheWorld :=
  if s.upstashConfigured then
    let av := isProviderAvailable now CacheProvider.upstash s.failures
    if av.fst then
      if w.upstash.failing then
        usaddAzure now w s k members (recordFailure now CacheProvider.upstash av.snd)
      else
        let r := azSadd w.upstash k members
        (Except.ok r.fst, { s with failures := resetFailures CacheProvider.upstash av.snd },
         { w with upstash := r.snd })
    else usaddAzure now w s k members av.snd
  else usaddAzure now w s k members s.failures

/-- Azure leg and fallback of `srem` (lines 679-691): fallback 0. -/
def usremAzure (now : Nat) (w : CacheWorld) (s : RedisState) (k : String)
    (members : List String) (f : FailureTracker) :
    Except CacheErr Nat × RedisState × CacheWorld :=
  if s.azureConfigured then
    let av := isProviderAvailable now CacheProvider.azure f
    if av.fst then
      if w.azure.failing then
        (Except.ok 0, { s with failures := recordFailure now CacheProvider.azure av.snd }, w)
      else
        let r := azSrem w.azure k members
        (Except.ok r.fst, { s with failures := resetFailures CacheProvider.azure av.snd },
         { w with azure := r.snd })
    else (Except.ok 0, { s with failures := av.snd }, w)
  else (Except.ok 0, { s with failures := f }, w)

/-- `srem` (lines 666-692). -/
def usrem (now : Nat) (w : CacheWorld) (s : RedisState) (k : String)
    (members : List String) : Except CacheErr Nat × RedisState × CacheWorld :=
  if s.upstashConfigured then
    let av := isProviderAvailable now CacheProvider.upstash s.failures
    if av.fst then
      if w.upstash.failing then
        usremAzure now w s k members (recordFailure now CacheProvider.upstash av.snd)
      else
        let r := azSrem w.upstash k members
        (Except.ok r.fst, { s with failures := resetFailures CacheProvider.upstash av.snd },
         { w with upstash := r.snd })
    else usremAzure now w s k members av.snd
  else usremAzure now w s k members s.failures

/-! ## Health reporting -/

/-- One provider's entry in the health snapshot. -/
structure ProviderStatus where
  configured : Bool
  available : Bool
  failures : Nat
deriving DecidableEq, Repr

/-- The `getHealthStatus` report (lines 708-722). -/
structure HealthStatus where
  active : RedisProvider
  upstash : ProviderStatus
  azure : ProviderStatus
deriving DecidableEq, Repr

/-- Field of the report belonging to a given provider. -/
def HealthStatus.provStatus (hs : HealthStatus) : CacheProvider → ProviderStatus
  | CacheProvider.upstash => hs.upstash
  | CacheProvider.azure => hs.azure

/-- `getHealthStatus` (lines 708-722).  The object literal evaluates
`isProviderAvailable('upstash')` (which may reset the upstash counter),
reads the upstash counter, then does the same for azure — so the
report shows the post-reset counters and the breaker mutation
persists. -/
def getHealthStatus (now : Nat) (s : RedisState) : HealthStatus × RedisState :=
  let au := isProviderAvailable now CacheProvider.upstash s.failures
  let aa := isProviderAvailable now CacheProvider.azure au.snd
  ({ active := s.activeProvider,
     upstash := { configured := s.upstashConfigured, available := au.fst,
                  failures := au.snd.upstash },
     azure := { configured := s.azureConfigured, available := aa.fst,
                failures := aa.snd.azure } },
   { s with failures := aa.snd })

/-- `healthCheck` status values (line 728). -/
inductive HStatus where
  | healthy : HStatus
  | degraded : HStatus
  | unhealthy : HStatus
deriving DecidableEq, Repr

/-- Result of `healthCheck` (without the latency sample, which is a
wall-clock measurement). -/
structure HCResult where
  status : HStatus
  provider : RedisProvider
  details : HealthStatus

/-- `healthCheck` (lines 727-757): a synthetic set/get/del round trip;
`healthy` when the read returns the string `'ok'`, `degraded` when it
returns anything else, `unhealthy` when the probe threw. -/
def healthCheck (now : Nat) (env : Env) (w : CacheWorld) (s : RedisState) :
    HCResult × RedisState × CacheWorld :=
  let testKey := "health:check:" ++ toString now
  let r1 := uset now env w s testKey (RVal.str "ok") (some 10)
  match r1.fst with
  | Except.error _ =>
    let gh := getHealthStatus now r1.2.1
    ({ status := HStatus.unhealthy, provider := r1.2.1.activeProvider, details := gh.fst },
     gh.snd, r1.2.2.1)
  | Except.ok _ =>
    let r2 := uget now r1.2.2.1 r1.2.1 testKey
    let r3 := udel now r1.2.2.1 r2.2.1 [testKey]
    let gh := getHealthStatus now r3.2.1
    let st := match r2.fst with
      | Except.ok (some (RVal.str t)) => if t = "ok" then HStatus.healthy else HStatus.degraded
      | _ => HStatus.degraded
    ({ status := st, provider := r3.2.1.activeProvider, details := gh.fst },
     gh.snd, r3.2.2)

/-! ## Data-store router circuit breaker (`src/unnamed/part_005`) -/

/-- `FAILURE_THRESHOLD` (part_005 line 29). -/
def FAILURE_THRESHOLD : Nat := 3

/-- `CIRCUIT_RESET_TIME` (part_005 line 30). -/
def CIRCUIT_RESET_TIME : Nat := 60000

/-- `ProviderHealth` (part_005 lines 17-21): unlike the cache router,
this breaker stores an explicit `isCircuitOpen` flag. -/
structure ProviderHealth where
  failures : Nat
  lastFailure : Nat
  isCircuitOpen : Bool
deriving DecidableEq, Repr

/-- The initial entry of `providerHealth` (part_005 lines 23-26). -/
def dbInitHealth : ProviderHealth :=
  { failures := 0, lastFailure := 0, isCircuitOpen := false }

/-- `recordFailure` (part_005 lines 160-171): bumps the counter, stamps
the time, and latches the open flag at the threshold. -/
def dbRecordFailure (now : Nat) (h : ProviderHealth) : ProviderHealth :=
  if FAILURE_THRESHOLD ≤ h.failures + 1 then
    { h with failures := h.failures + 1, lastFailure := now, isCircuitOpen := true }
  else
    { h with failures := h.failures + 1, lastFailure := now }

/-- `recordSuccess` (part_005 lines 186-193): zeroes the counter (the
source only writes when it is non-zero, which is the same result) and
closes the circuit. -/
def dbRecordSuccess (h : ProviderHealth) : ProviderHealth :=
  if 0 < h.failures then { h with failures := 0, isCircuitOpen := false }
  else { h with isCircuitOpen := false }

/-- `isProviderAvailable` (part_005 lines 173-184): resets an open
circuit after `CIRCUIT_RESET_TIME` has elapsed since the last failure,
then reports `!isCircuitOpen`. -/
def dbIsProviderAvailable (now : Nat) (h : ProviderHealth) : Bool × ProviderHealth :=
  if h.isCircuitOpen = true ∧ CIRCUIT_RESET_TIME < now - h.lastFailure then
    (true, { h with failures := 0, isCircuitOpen := false })
  else (!h.isCircuitOpen, h)

/-- The three mutations a `ProviderHealth` entry undergoes: a failure
report, a success report, or an availability check (which can reset an
elapsed open circuit). -/
inductive DbEvent where
  | fail (now : Nat) : DbEvent
  | success : DbEvent
  | availCheck (now : Nat) : DbEvent

/-- Applies one event to a breaker entry. -/
def dbStep (h : ProviderHealth) : DbEvent → ProviderHealth
  | DbEvent.fail now => dbRecordFailure now h
  | DbEvent.success => dbRecordSuccess h
  | DbEvent.availCheck now => (dbIsProviderAvailable now h).snd

/-- A breaker entry reached from process start by a sequence of
events. -/
def dbRun (es : List DbEvent) : ProviderHealth :=
  es.foldl dbStep dbInitHealth

/-- The two data-store providers. -/
inductive DbProvider where
  | supabase : DbProvider
  | azure : DbProvider
deriving DecidableEq, Repr

/-- Which data-store clients were created (non-null). -/
structure DbConfig where
  supabaseConfigured : Bool
  azureConfigured : Bool
deriving DecidableEq, Repr

/-- State the database router consults: configuration plus both breaker
entries. -/
structure DbState where
  config : DbConfig
  supabaseHealth : ProviderHealth
  azureHealth : ProviderHealth

/-- `$disconnect` (part_005 lines 404-409): tears down every client
that exists, consulting neither breaker; returns the list of providers
torn down. -/
def dbDisconnect (st : DbState) : List DbProvider :=
  (if st.config.supabaseConfigured then [DbProvider.supabase] else []) ++
    (if st.config.azureConfigured then [DbProvider.azure] else [])

/-! ## Scenario states and derived definitions used by the claims -/

/-- A healthy provider client with an empty store. -/
def emptyClient : ClientState :=
  { failing := false, store := [], sets := [], ttls := [], evalResult := RVal.jnull }

/-- A provider client whose every call throws. -/
def failingClient : ClientState :=
  { emptyClient with failing := true }

/-- Both providers configured, fresh breaker. -/
def bothState : RedisState :=
  { upstashConfigured := true, azureConfigured := true,
    activeProvider := RedisProvider.upstash,
    failures := ⟨0, 0, 0, 0⟩ }

/-- Primary made to always fail, secondary healthy. -/
def c6World : CacheWorld :=
  { upstash := failingClient, azure := emptyClient }

/-- The C6 scenario: `set("x", \x7bn: 42\x7d, ttl=10)` ... -/
def c6Set : Except CacheErr String × RedisState × CacheWorld × List DriverCall :=
  uset 1000 Env.production c6World bothState "x" (RVal.obj [("n", RVal.num 42)]) (some 10)

/-- ... followed by `get("x")` on the resulting state. -/
def c6Get : Except CacheErr (Option RVal) × RedisState × List DriverCall :=
  uget 1000 c6Set.2.2.1 c6Set.2.1 "x"

/-- Both provider clients configured but failing on every call. -/
def outageWorld : CacheWorld :=
  { upstash := failingClient, azure := failingClient }

/-- Router with only the secondary (Azure) provider configured. -/
def azOnlyState : RedisState :=
  { upstashConfigured := false, azureConfigured := true,
    activeProvider := RedisProvider.azure, failures := ⟨0, 0, 0, 0⟩ }

/-- Router with only the primary (Upstash) provider configured. -/
def upOnlyState : RedisState :=
  { upstashConfigured := true, azureConfigured := false,
    activeProvider := RedisProvider.upstash, failures := ⟨0, 0, 0, 0⟩ }

/-- Both providers healthy with empty stores. -/
def bothHealthyWorld : CacheWorld :=
  { upstash := emptyClient, azure := emptyClient }

/-- `set(k, v)` then `get(k)`, both calls served by the secondary
(Azure) provider. -/
def roundtripAzure (k : String) (v : RVal) : Except CacheErr (Option RVal) :=
  let r := uset 0 Env.production bothHealthyWorld azOnlyState k v none
  (uget 0 r.2.2.1 r.2.1 k).fst

/-- `set(k, v)` then `get(k)`, both calls served by the primary
(Upstash) provider. -/
def roundtripUpstash (k : String) (v : RVal) : Except CacheErr (Option RVal) :=
  let r := uset 0 Env.production bothHealthyWorld upOnlyState k v none
  (uget 0 r.2.2.1 r.2.1 k).fst

/-- A world whose Azure store holds exactly one binding. -/
def azWorldWith (k sv : String) : CacheWorld :=
  { upstash := emptyClient, azure := { emptyClient with store := [(k, sv)] } }

/-- A concrete just-opened breaker state for the cache router: three
upstash failures, the last one at time 0. -/
def c4open : FailureTracker := ⟨3, 0, 0, 0⟩

/-- The stored `isCircuitOpen` flag agrees with the derived
`failures ≥ threshold` condition. -/
def DbInv (h : ProviderHealth) : Prop :=
  h.isCircuitOpen = decide (FAILURE_THRESHOLD ≤ h.failures)

/-! ## Helper lemmas about the cache breaker -/

theorem isAvail_of_lt (now : Nat) (p : CacheProvider) (f : FailureTracker)
    (h : f.count p < MAX_FAILURES) : isProviderAvailable now p f = (true, f) := by
  unfold isProviderAvailable
  rw [if_pos h]

theorem isAvail_of_elapsed (now : Nat) (p : CacheProvider) (f : FailureTracker)
    (h : MAX_FAILURES ≤ f.count p) (he : FAILURE_RESET_TIME < now - f.lastF p) :
    isProviderAvailable now p f = (true, resetFailures p f) := by
  unfold isProviderAvailable
  rw [if_neg (Nat.not_lt.mpr h), if_pos he]

theorem isAvail_of_recent (now : Nat) (p : CacheProvider) (f : FailureTracker)
    (h : MAX_FAILURES ≤ f.count p) (he : now - f.lastF p ≤ FAILURE_RESET_TIME) :
    isProviderAvailable now p f = (false, f) := by
  unfold isProviderAvailable
  rw [if_neg (Nat.not_lt.mpr h), if_neg (Nat.not_lt.mpr he)]

theorem isAvail_fst (now : Nat) (p : CacheProvider) (f : FailureTracker) :
    (isProviderAvailable now p f).fst
      = (decide (f.count p < MAX_FAILURES) || decide (FAILURE_RESET_TIME < now - f.lastF p)) := by
  unfold isProviderAvailable
  by_cases h1 : f.count p < MAX_FAILURES
  · simp [h1]
  · by_cases h2 : FAILURE_RESET_TIME < now - f.lastF p <;> simp [h1, h2]

theorem isAvail_snd_of_false (now : Nat) (p : CacheProvider) (f : FailureTracker)
    (h : (isProviderAvailable now p f).fst = false) :
    (isProviderAvailable now p f).snd = f := by
  unfold isProviderAvailable at h ⊢
  by_cases h1 : f.count p < MAX_FAILURES
  · rw [if_pos h1] at h
    exact absurd h (by simp)
  · by_cases h2 : FAILURE_RESET_TIME < now - f.lastF p
    · rw [if_neg h1, if_pos h2] at h
      exact absurd h (by simp)
    · rw [if_neg h1, if_neg h2]

theorem recordFailure_count_other (t : Nat) (f : FailureTracker) :
    (recordFailure t CacheProvider.upstash f).count CacheProvider.azure
      = f.count CacheProvider.azure ∧
    (recordFailure t CacheProvider.upstash f).lastF CacheProvider.azure
      = f.lastF CacheProvider.azure ∧
    (recordFailure t CacheProvider.azure f).count CacheProvider.upstash
      = f.count CacheProvider.upstash ∧
    (recordFailure t CacheProvider.azure f).lastF CacheProvider.upstash
      = f.lastF CacheProvider.upstash :=
  ⟨rfl, rfl, rfl, rfl⟩

theorem resetFailures_count_other (f : FailureTracker) :
    (resetFailures CacheProvider.upstash f).count CacheProvider.azure
      = f.count CacheProvider.azure ∧
    (resetFailures CacheProvider.upstash f).lastF CacheProvider.azure
      = f.lastF CacheProvider.azure ∧
    (resetFailures CacheProvider.azure f).count CacheProvider.upstash
      = f.count CacheProvider.upstash ∧
    (resetFailures CacheProvider.azure f).lastF CacheProvider.upstash
      = f.lastF CacheProvider.upstash :=
  ⟨rfl, rfl, rfl, rfl⟩

theorem isAvail_azure_fst_record_upstash (now t : Nat) (f : FailureTracker) :
    (isProviderAvailable now CacheProvider.azure (recordFailure t CacheProvider.upstash f)).fst
      = (isProviderAvailable now CacheProvider.azure f).fst := by
  rw [isAvail_fst, isAvail_fst,
    (recordFailure_count_other t f).1, (recordFailure_count_other t f).2.1]

theorem isAvail_azure_fst_reset_upstash (now : Nat) (f : FailureTracker) :
    (isProviderAvailable now CacheProvider.azure (resetFailures CacheProvider.upstash f)).fst
      = (isProviderAvailable now CacheProvider.azure f).fst := by
  rw [isAvail_fst, isAvail_fst,
    (resetFailures_count_other f).1, (resetFailures_count_other f).2.1]

theorem isAvail_upstash_snd_azure_fields (now : Nat) (f : FailureTracker) :
    (isProviderAvailable now CacheProvider.upstash f).snd.azure = f.azure ∧
    (isProviderAvailable now CacheProvider.upstash f).snd.lastAzureFailure
      = f.lastAzureFailure := by
  unfold isProviderAvailable
  split
  · exact ⟨rfl, rfl⟩
  · split
    · exact ⟨rfl, rfl⟩
    · exact ⟨rfl, rfl⟩

/-- C2: for every provider and breaker state, `isProviderAvailable`
returns true whenever the failure count is under the threshold of 3;
at or over the threshold it returns true — resetting the count to 0 —
exactly when strictly more than the 60s reset window has elapsed since
the last failure, and false otherwise; in particular it is false
immediately after the third consecutive `recordFailure`. -/
theorem breaker_isAvailable_spec (p : CacheProvider) (f : FailureTracker)
    (now t1 t2 t3 : Nat) :
    (f.count p < MAX_FAILURES → isProviderAvailable now p f = (true, f))
    ∧ (MAX_FAILURES ≤ f.count p → FAILURE_RESET_TIME < now - f.lastF p →
        isProviderAvailable now p f = (true, resetFailures p f)
          ∧ (resetFailures p f).count p = 0)
    ∧ (MAX_FAILURES ≤ f.count p → now - f.lastF p ≤ FAILURE_RESET_TIME →
        isProviderAvailable now p f = (false, f))
    ∧ (isProviderAvailable t3 p
        (recordFailure t3 p (recordFailure t2 p (recordFailure t1 p f)))).fst = false := by
  refine ⟨fun h => isAvail_of_lt now p f h,
    fun h he => ⟨isAvail_of_elapsed now p f h he, by cases p <;> rfl⟩,
    fun h he => isAvail_of_recent now p f h he, ?_⟩
  have hc : (recordFailure t3 p (recordFailure t2 p (recordFailure t1 p f))).count p
      = f.count p + 3 := by
    cases p <;> rfl
  have hl : (recordFailure t3 p (recordFailure t2 p (recordFailure t1 p f))).lastF p = t3 := by
    cases p <;> rfl
  rw [isAvail_of_recent t3 p _ (by rw [hc]; exact Nat.le_add_left 3 (f.count p))
    (by rw [hl]; simp [FAILURE_RESET_TIME])]

/-- Witness for `breaker_isAvailable_spec` at a concrete open breaker
whose reset window has elapsed. -/
theorem breaker_isAvailable_spec_witness :
    isProviderAvailable 70000 CacheProvider.upstash ⟨5, 0, 0, 0⟩
      = (true, resetFailures CacheProvider.upstash ⟨5, 0, 0, 0⟩)
    ∧ (resetFailures CacheProvider.upstash ⟨5, 0, 0, 0⟩).count CacheProvider.upstash = 0 :=
  (breaker_isAvailable_spec CacheProvider.upstash ⟨5, 0, 0, 0⟩ 70000 0 0 0).2.1
    (by decide) (by decide)

/-! ## Claims about the breaker's recovery behavior -/

/-- C4 counterexample: once the reset window has elapsed, the
availability check resets the upstash counter to 0, and after the
retried probe fails the provider is still available — and it remains
available even after a second new failure.  Under the claimed
single-half-open-probe semantics the breaker would be unavailable again
right after the failed probe. -/
theorem breaker_fresh_allowance_counterexample :
    (isProviderAvailable 60001 CacheProvider.upstash c4open).fst = true
    ∧ (isProviderAvailable 60001 CacheProvider.upstash c4open).snd.upstash = 0
    ∧ (isProviderAvailable 70000 CacheProvider.upstash
        (recordFailure 60001 CacheProvider.upstash
          (isProviderAvailable 60001 CacheProvider.upstash c4open).snd)).fst = true
    ∧ (isProviderAvailable 80000 CacheProvider.upstash
        (recordFailure 70000 CacheProvider.upstash
          (recordFailure 60001 CacheProvider.upstash
            (isProviderAvailable 60001 CacheProvider.upstash c4open).snd))).fst = true := by
  decide

/-- C4 (amended): while the breaker is open and the reset window has
not elapsed, every call skips the provider entirely — `get` and `set`
are exactly their Azure legs started from the untouched tracker with no
upstash driver call; once the window has elapsed the availability check
resets the counter to 0, after which the provider has a fresh allowance
of three failures (still available after one and after two new
failures, unavailable immediately after the third). -/
theorem breaker_skip_then_fresh_allowance (now u1 u2 t1 t2 t3 : Nat) (env : Env)
    (w : CacheWorld) (s : RedisState) (k : String) (v : RVal) (ex : Option Nat)
    (h3 : MAX_FAILURES ≤ s.failures.count CacheProvider.upstash)
    (he : now - s.failures.lastF CacheProvider.upstash ≤ FAILURE_RESET_TIME) :
    (isProviderAvailable now CacheProvider.upstash s.failures).fst = false
    ∧ uget now w s k = ugetAzure now w s k s.failures []
    ∧ uset now env w s k v ex = usetAzure now env w s k v ex s.failures []
    ∧ (FAILURE_RESET_TIME < u1 - s.failures.lastF CacheProvider.upstash →
        isProviderAvailable u1 CacheProvider.upstash s.failures
          = (true, resetFailures CacheProvider.upstash s.failures)
        ∧ (resetFailures CacheProvider.upstash s.failures).upstash = 0
        ∧ (isProviderAvailable u2 CacheProvider.upstash
            (recordFailure t1 CacheProvider.upstash
              (resetFailures CacheProvider.upstash s.failures))).fst = true
        ∧ (isProviderAvailable u2 CacheProvider.upstash
            (recordFailure t2 CacheProvider.upstash
              (recordFailure t1 CacheProvider.upstash
                (resetFailures CacheProvider.upstash s.failures)))).fst = true
        ∧ (isProviderAvailable t3 CacheProvider.upstash
            (recordFailure t3 CacheProvider.upstash
              (recordFailure t2 CacheProvider.upstash
                (recordFailure t1 CacheProvider.upstash
                  (resetFailures CacheProvider.upstash s.failures))))).fst = false) := by
  have havail := isAvail_of_recent now CacheProvider.upstash s.failures h3 he
  refine ⟨by rw [havail], ?_, ?_, ?_⟩
  · unfold uget
    by_cases hc : s.upstashConfigured <;> simp [hc, havail]
  · unfold uset
    by_cases hc : s.upstashConfigured <;> simp [hc, havail]
  · intro hu
    refine ⟨isAvail_of_elapsed u1 CacheProvider.upstash s.failures h3 hu, rfl, ?_, ?_, ?_⟩
    · rw [isAvail_of_lt u2 CacheProvider.upstash _ (by simp [recordFailure, resetFailures,
        FailureTracker.count, MAX_FAILURES])]
    · rw [isAvail_of_lt u2 CacheProvider.upstash _ (by simp [recordFailure, resetFailures,
        FailureTracker.count, MAX_FAILURES])]
    · rw [isAvail_of_recent t3 CacheProvider.upstash _ (by simp [recordFailure, resetFailures,
        FailureTracker.count, MAX_FAILURES]) (by simp [recordFailure, resetFailures,
        FailureTracker.lastF])]

/-! ## The stored-flag invariant of the data-store breaker -/

theorem dbStep_inv (h : ProviderHealth) (e : DbEvent) (hi : DbInv h) : DbInv (dbStep h e) := by
  cases e with
  | fail now =>
    unfold DbInv at hi ⊢
    unfold dbStep dbRecordFailure
    by_cases h3 : FAILURE_THRESHOLD ≤ h.failures + 1
    · simp [h3]
    · have h4 : ¬ FAILURE_THRESHOLD ≤ h.failures := fun hle => h3 (Nat.le_succ_of_le hle)
      simp only [if_neg h3]
      rw [hi]
      simp [h3, h4]
  | success =>
    unfold DbInv dbStep dbRecordSuccess
    by_cases h0 : 0 < h.failures
    · simp [h0, FAILURE_THRESHOLD]
    · have h4 : h.failures = 0 := Nat.eq_zero_of_not_pos h0
      simp [h0, h4, FAILURE_THRESHOLD]
  | availCheck now =>
    unfold DbInv at hi ⊢
    unfold dbStep dbIsProviderAvailable
    by_cases hr : h.isCircuitOpen = true ∧ CIRCUIT_RESET_TIME < now - h.lastFailure
    · simp [hr, FAILURE_THRESHOLD]
    · simp only [if_neg hr]
      exact hi

theorem dbRun_inv (es : List DbEvent) : DbInv (dbRun es) := by
  have main : ∀ (l : List DbEvent) (h : ProviderHealth), DbInv h → DbInv (l.foldl dbStep h) := by
    intro l
    induction l with
    | nil => exact fun h hi => hi
    | cons e tl ih => exact fun h hi => ih _ (dbStep_inv h e hi)
  exact main es dbInitHealth rfl

/-- C7: in every reachable state of the data-store breaker, the stored
`isCircuitOpen` flag coincides with `failures ≥ threshold`; any
observed success zeroes the failure counter (and closes the circuit);
a breaker opened long ago becomes eligible again — availability after
the reset window resets the entry with no explicit close action; and
on the cache-router side `resetFailures` zeroes the provider's counter
on any observed success. -/
theorem db_breaker_invariant (es : List DbEvent) (now : Nat) (p : CacheProvider)
    (f : FailureTracker) :
    ((dbRun es).isCircuitOpen = decide (FAILURE_THRESHOLD ≤ (dbRun es).failures))
    ∧ (dbRecordSuccess (dbRun es)).failures = 0
    ∧ (dbRecordSuccess (dbRun es)).isCircuitOpen = false
    ∧ ((dbRun es).isCircuitOpen = true →
        CIRCUIT_RESET_TIME < now - (dbRun es).lastFailure →
        dbIsProviderAvailable now (dbRun es)
          = (true, { dbRun es with failures := 0, isCircuitOpen := false }))
    ∧ (resetFailures p f).count p = 0 := by
  refine ⟨dbRun_inv es, ?_, ?_, ?_, by cases p <;> rfl⟩
  · unfold dbRecordSuccess
    by_cases h0 : 0 < (dbRun es).failures
    · simp [h0]
    · simp [h0, Nat.eq_zero_of_not_pos h0]
  · unfold dbRecordSuccess
    by_cases h0 : 0 < (dbRun es).failures <;> simp [h0]
  · intro ho he
    unfold dbIsProviderAvailable
    rw [if_pos ⟨ho, he⟩]

/-- Witness for `db_breaker_invariant`: three failures open the
breaker; a status check after the reset window closes it again. -/
theorem db_breaker_invariant_witness :
    dbIsProviderAvailable 100000
        (dbRun [DbEvent.fail 10, DbEvent.fail 20, DbEvent.fail 30])
      = (true, { dbRun [DbEvent.fail 10, DbEvent.fail 20, DbEvent.fail 30] with
          failures := 0, isCircuitOpen := false }) :=
  (db_breaker_invariant [DbEvent.fail 10, DbEvent.fail 20, DbEvent.fail 30] 100000
    CacheProvider.upstash ⟨0, 0, 0, 0⟩).2.2.2.1 (by decide) (by decide)

/-- C8: `$disconnect` tears down exactly the configured providers,
for every breaker state — the result ignores both `ProviderHealth`
entries entirely, so open circuits do not prevent teardown. -/
theorem db_disconnect_unconditional (cfg : DbConfig) (h1 h2 g1 g2 : ProviderHealth) :
    dbDisconnect ⟨cfg, h1, h2⟩ = dbDisconnect ⟨cfg, g1, g2⟩
    ∧ (cfg.supabaseConfigured = true → DbProvider.supabase ∈ dbDisconnect ⟨cfg, h1, h2⟩)
    ∧ (cfg.azureConfigured = true → DbProvider.azure ∈ dbDisconnect ⟨cfg, h1, h2⟩)
    ∧ (cfg.supabaseConfigured = false → cfg.azureConfigured = false →
        dbDisconnect ⟨cfg, h1, h2⟩ = []) := by
  refine ⟨rfl, ?_, ?_, ?_⟩
  · intro h; simp [dbDisconnect, h]
  · intro h; simp [dbDisconnect, h]
  · intro ha hb; simp [dbDisconnect, ha, hb]

/-- Witness for `db_disconnect_unconditional`: both providers torn down
while both circuits are open. -/
theorem db_disconnect_unconditional_witness :
    DbProvider.supabase ∈ dbDisconnect ⟨⟨true, true⟩, ⟨5, 0, true⟩, ⟨5, 0, true⟩⟩
    ∧ DbProvider.azure ∈ dbDisconnect ⟨⟨true, true⟩, ⟨5, 0, true⟩, ⟨5, 0, true⟩⟩ :=
  ⟨(db_disconnect_unconditional ⟨true, true⟩ ⟨5, 0, true⟩ ⟨5, 0, true⟩ ⟨5, 0, true⟩
      ⟨5, 0, true⟩).2.1 rfl,
   (db_disconnect_unconditional ⟨true, true⟩ ⟨5, 0, true⟩ ⟨5, 0, true⟩ ⟨5, 0, true⟩
      ⟨5, 0, true⟩).2.2.1 rfl⟩

/-! ## The active provider is fixed at construction -/

theorem ugetAzure_active (now : Nat) (w : CacheWorld) (s : RedisState) (k : String)
    (f : FailureTracker) (t : List DriverCall) :
    (ugetAzure now w s k f t).2.1.activeProvider = s.activeProvider := by
  unfold ugetAzure
  try dsimp only
  repeat' split
  all_goals rfl

theorem uget_active (now : Nat) (w : CacheWorld) (s : RedisState) (k : String) :
    (uget now w s k).2.1.activeProvider = s.activeProvider := by
  unfold uget
  try dsimp only
  repeat' split
  all_goals first | rfl | exact ugetAzure_active _ _ _ _ _ _

theorem usetFallback_active (env : Env) (s : RedisState) (f : FailureTracker)
    (w : CacheWorld) (t : List DriverCall) :
    (usetFallback env s f w t).2.1.activeProvider = s.activeProvider := by
  unfold usetFallback
  try dsimp only
  repeat' split
  all_goals rfl

theorem usetAzure_active (now : Nat) (env : Env) (w : CacheWorld) (s : RedisState)
    (k : String) (v : RVal) (ex : Option Nat) (f : FailureTracker) (t : List DriverCall) :
    (usetAzure now env w s k v ex f t).2.1.activeProvider = s.activeProvider := by
  unfold usetAzure
  try dsimp only
  repeat' split
  all_goals first | rfl | exact usetFallback_active _ _ _ _ _

theorem uset_active (now : Nat) (env : Env) (w : CacheWorld) (s : RedisState)
    (k : String) (v : RVal) (ex : Option Nat) :
    (uset now env w s k v ex).2.1.activeProvider = s.activeProvider := by
  unfold uset
  try dsimp only
  repeat' split
  all_goals first | rfl | exact usetAzure_active _ _ _ _ _ _ _ _ _

theorem udelAzure_active (now : Nat) (w : CacheWorld) (s : RedisState) (ks : List String)
    (f : FailureTracker) :
    (udelAzure now w s ks f).2.1.activeProvider = s.activeProvider := by
  unfold udelAzure
  try dsimp only
  repeat' split
  all_goals rfl

theorem udel_active (now : Nat) (w : CacheWorld) (s : RedisState) (key : List String) :
    (udel now w s key).2.1.activeProvider = s.activeProvider := by
  unfold udel
  try dsimp only
  repeat' split
  all_goals first | rfl | exact udelAzure_active _ _ _ _ _

theorem uincrAzure_active (now : Nat) (w : CacheWorld) (s : RedisState) (k : String)
    (f : FailureTracker) :
    (uincrAzure now w s k f).2.1.activeProvider = s.activeProvider := by
  unfold uincrAzure
  try dsimp only
  repeat' split
  all_goals rfl

theorem uincr_active (now : Nat) (w : CacheWorld) (s : RedisState) (k : String) :
    (uincr now w s k).2.1.activeProvider = s.activeProvider := by
  unfold uincr
  try dsimp only
  repeat' split
  all_goals first | rfl | exact uincrAzure_active _ _ _ _ _

theorem uexpireAzure_active (now : Nat) (w : CacheWorld) (s : RedisState) (k : String)
    (secs : Nat) (f : FailureTracker) :
    (uexpireAzure now w s k secs f).2.1.activeProvider = s.activeProvider := by
  unfold uexpireAzure
  try dsimp only
  repeat' split
  all_goals rfl

theorem uexpire_active (now : Nat) (w : CacheWorld) (s : RedisState) (k : String)
    (secs : Nat) :
    (uexpire now w s k secs).2.1.activeProvider = s.activeProvider := by
  unfold uexpire
  try dsimp only
  repeat' split
  all_goals first | rfl | exact uexpireAzure_active _ _ _ _ _ _

theorem uttlAzure_active (now : Nat) (w : CacheWorld) (s : RedisState) (k : String)
    (f : FailureTracker) :
    (uttlAzure now w s k f).snd.activeProvider = s.activeProvider := by
  unfold uttlAzure
  try dsimp only
  repeat' split
  all_goals rfl

theorem uttl_active (now : Nat) (w : CacheWorld) (s : RedisState) (k : String) :
    (uttl now w s k).snd.activeProvider = s.activeProvider := by
  unfold uttl
  try dsimp only
  repeat' split
  all_goals first | rfl | exact uttlAzure_active _ _ _ _ _

theorem uexistsAzure_active (now : Nat) (w : CacheWorld) (s : RedisState) (k : String)
    (f : FailureTracker) :
    (uexistsAzure now w s k f).snd.activeProvider = s.activeProvider := by
  unfold uexistsAzure
  try dsimp only
  repeat' split
  all_goals rfl

theorem uexists_active (now : Nat) (w : CacheWorld) (s : RedisState) (k : String) :
    (uexists now w s k).snd.activeProvider = s.activeProvider := by
  unfold uexists
  try dsimp only
  repeat' split
  all_goals first | rfl | exact uexistsAzure_active _ _ _ _ _

theorem usetexAzure_active (now : Nat) (w : CacheWorld) (s : RedisState) (k : String)
    (secs : Nat) (v : RVal) (f : FailureTracker) (t : List DriverCall) :
    (usetexAzure now w s k secs v f t).2.1.activeProvider = s.activeProvider := by
  unfold usetexAzure
  try dsimp only
  repeat' split
  all_goals rfl

theorem usetex_active (now : Nat) (w : CacheWorld) (s : RedisState) (k : String)
    (secs : Nat) (v : RVal) :
    (usetex now w s k secs v).2.1.activeProvider = s.activeProvider := by
  unfold usetex
  try dsimp only
  repeat' split
  all_goals first | rfl | exact usetexAzure_active _ _ _ _ _ _ _ _

theorem ukeysAzure_active (now : Nat) (w : CacheWorld) (s : RedisState) (pattern : String)
    (f : FailureTracker) :
    (ukeysAzure now w s pattern f).snd.activeProvider = s.activeProvider := by
  unfold ukeysAzure
  try dsimp only
  repeat' split
  all_goals rfl

theorem ukeys_active (now : Nat) (w : CacheWorld) (s : RedisState) (pattern : String) :
    (ukeys now w s pattern).snd.activeProvider = s.activeProvider := by
  unfold ukeys
  try dsimp only
  repeat' split
  all_goals first | rfl | exact ukeysAzure_active _ _ _ _ _

theorem uevalAzure_active (now : Nat) (env : Env) (w : CacheWorld) (s : RedisState)
    (f : FailureTracker) :
    (uevalAzure now env w s f).snd.activeProvider = s.activeProvider := by
  unfold uevalAzure
  try dsimp only
  repeat' split
  all_goals rfl

theorem ueval_active (now : Nat) (env : Env) (w : CacheWorld) (s : RedisState) :
    (ueval now env w s).snd.activeProvider = s.activeProvider := by
  unfold ueval
  try dsimp only
  repeat' split
  all_goals first | rfl | exact uevalAzure_active _ _ _ _ _

theorem usaddAzure_active (now : Nat) (w : CacheWorld) (s : RedisState) (k : String)
    (members : List String) (f : FailureTracker) :
    (usaddAzure now w s k members f).2.1.activeProvider = s.activeProvider := by
  unfold usaddAzure
  try dsimp only
  repeat' split
  all_goals rfl

theorem usadd_active (now : Nat) (w : CacheWorld) (s : RedisState) (k : String)
    (members : List String) :
    (usadd now w s k members).2.1.activeProvider = s.activeProvider := by
  unfold usadd
  try dsimp only
  repeat' split
  all_goals first | rfl | exact usaddAzure_active _ _ _ _ _ _

theorem usremAzure_active (now : Nat) (w : CacheWorld) (s : RedisState) (k : String)
    (members : List String) (f : FailureTracker) :
    (usremAzure now w s k members f).2.1.activeProvider = s.activeProvider := by
  unfold usremAzure
  try dsimp only
  repeat' split
  all_goals rfl

theorem usrem_active (now : Nat) (w : CacheWorld) (s : RedisState) (k : String)
    (members : List String) :
    (usrem now w s k members).2.1.activeProvider = s.activeProvider := by
  unfold usrem
  try dsimp only
  repeat' split
  all_goals first | rfl | exact usremAzure_active _ _ _ _ _ _

theorem getHealthStatus_active (now : Nat) (s : RedisState) :
    (getHealthStatus now s).fst.active = s.activeProvider
    ∧ (getHealthStatus now s).snd.activeProvider = s.activeProvider :=
  ⟨rfl, rfl⟩

theorem healthCheck_active (now : Nat) (env : Env) (w : CacheWorld) (s : RedisState) :
    (healthCheck now env w s).fst.provider = s.activeProvider
    ∧ (healthCheck now env w s).2.1.activeProvider = s.activeProvider := by
  unfold healthCheck
  dsimp only
  constructor
  · split
    · exact uset_active _ _ _ _ _ _ _
    · rw [udel_active, uget_active]
      exact uset_active _ _ _ _ _ _ _
  · split
    · rw [(getHealthStatus_active _ _).2]
      exact uset_active _ _ _ _ _ _ _
    · rw [(getHealthStatus_active _ _).2, udel_active, uget_active]
      exact uset_active _ _ _ _ _ _ _

/-- C9: the `activeProvider` field is fixed by `initialize` (upstash
when configured, else azure, else mock) and no operation — reads,
writes, health status, or the health-check probe — ever changes it;
`getActiveProvider`, `getHealthStatus` and `healthCheck` all report
this construction-time value even when calls are being served by the
secondary provider. -/
theorem activeProvider_fixed_at_construction (uc ac : Bool) (now : Nat) (env : Env)
    (w : CacheWorld) (s : RedisState) (k pattern : String) (key members : List String)
    (secs : Nat) (v : RVal) (ex : Option Nat) :
    (initState uc ac).activeProvider
      = (if uc then RedisProvider.upstash else if ac then RedisProvider.azure
         else RedisProvider.mock)
    ∧ getActiveProvider s = s.activeProvider
    ∧ (uget now w s k).2.1.activeProvider = s.activeProvider
    ∧ (uset now env w s k v ex).2.1.activeProvider = s.activeProvider
    ∧ (udel now w s key).2.1.activeProvider = s.activeProvider
    ∧ (uincr now w s k).2.1.activeProvider = s.activeProvider
    ∧ (uexpire now w s k secs).2.1.activeProvider = s.activeProvider
    ∧ (uttl now w s k).snd.activeProvider = s.activeProvider
    ∧ (uexists now w s k).snd.activeProvider = s.activeProvider
    ∧ (usetex now w s k secs v).2.1.activeProvider = s.activeProvider
    ∧ (ukeys now w s pattern).snd.activeProvider = s.activeProvider
    ∧ (ueval now env w s).snd.activeProvider = s.activeProvider
    ∧ (usadd now w s k members).2.1.activeProvider = s.activeProvider
    ∧ (usrem now w s k members).2.1.activeProvider = s.activeProvider
    ∧ (getHealthStatus now s).fst.active = s.activeProvider
    ∧ (getHealthStatus now s).snd.activeProvider = s.activeProvider
    ∧ (healthCheck now env w s).fst.provider = s.activeProvider
    ∧ (healthCheck now env w s).2.1.activeProvider = s.activeProvider :=
  ⟨rfl, rfl, uget_active now w s k, uset_active now env w s k v ex,
   udel_active now w s key, uincr_active now w s k, uexpire_active now w s k secs,
   uttl_active now w s k, uexists_active now w s k, usetex_active now w s k secs v,
   ukeys_active now w s pattern, ueval_active now env w s, usadd_active now w s k members,
   usrem_active now w s k members, (getHealthStatus_active now s).1,
   (getHealthStatus_active now s).2, (healthCheck_active now env w s).1,
   (healthCheck_active now env w s).2⟩

theorem isAvail_azure_snd_upstash_fields (now : Nat) (f : FailureTracker) :
    (isProviderAvailable now CacheProvider.azure f).snd.upstash = f.upstash ∧
    (isProviderAvailable now CacheProvider.azure f).snd.lastUpstashFailure
      = f.lastUpstashFailure := by
  unfold isProviderAvailable
  split
  · exact ⟨rfl, rfl⟩
  · split <;> exact ⟨rfl, rfl⟩

/-- C10: `getHealthStatus` is not read-only — for any provider whose
failure count is at or over the threshold, once more than the reset
window has elapsed since its last failure, the status query resets that
provider's counter to 0 (persisting in the router state) and reports
the provider as available with 0 failures. -/
theorem healthStatus_closes_elapsed_breaker (now : Nat) (s : RedisState) (p : CacheProvider)
    (h3 : MAX_FAILURES ≤ s.failures.count p)
    (he : FAILURE_RESET_TIME < now - s.failures.lastF p) :
    (getHealthStatus now s).snd.failures.count p = 0
    ∧ ((getHealthStatus now s).fst.provStatus p).available = true
    ∧ ((getHealthStatus now s).fst.provStatus p).failures = 0 := by
  cases p with
  | upstash =>
    have hau := isAvail_of_elapsed now CacheProvider.upstash s.failures h3 he
    unfold getHealthStatus HealthStatus.provStatus
    dsimp only
    rw [hau]
    refine ⟨?_, rfl, rfl⟩
    show (isProviderAvailable now CacheProvider.azure
      (true, resetFailures CacheProvider.upstash s.failures).snd).snd.upstash = 0
    rw [(isAvail_azure_snd_upstash_fields now _).1]
    rfl
  | azure =>
    have hc := (isAvail_upstash_snd_azure_fields now s.failures).1
    have hl := (isAvail_upstash_snd_azure_fields now s.failures).2
    have h3t : MAX_FAILURES ≤
        ((isProviderAvailable now CacheProvider.upstash s.failures).snd).count
          CacheProvider.azure := by
      show MAX_FAILURES ≤ (isProviderAvailable now CacheProvider.upstash s.failures).snd.azure
      rw [hc]
      exact h3
    have het : FAILURE_RESET_TIME <
        now - ((isProviderAvailable now CacheProvider.upstash s.failures).snd).lastF
          CacheProvider.azure := by
      show FAILURE_RESET_TIME <
        now - (isProviderAvailable now CacheProvider.upstash s.failures).snd.lastAzureFailure
      rw [hl]
      exact he
    have haa := isAvail_of_elapsed now CacheProvider.azure _ h3t het
    unfold getHealthStatus HealthStatus.provStatus
    dsimp only
    rw [haa]
    exact ⟨rfl, rfl, rfl⟩

/-- Witness for `healthStatus_closes_elapsed_breaker`: a concrete
router state with an open azure breaker whose window has elapsed. -/
theorem healthStatus_closes_elapsed_breaker_witness :
    (getHealthStatus 70000
        ⟨true, true, RedisProvider.upstash, ⟨0, 4, 0, 100⟩⟩).snd.failures.count
      CacheProvider.azure = 0
    ∧ (((getHealthStatus 70000
        ⟨true, true, RedisProvider.upstash, ⟨0, 4, 0, 100⟩⟩).fst.provStatus
          CacheProvider.azure).available = true) :=
  ⟨(healthStatus_closes_elapsed_breaker 70000
      ⟨true, true, RedisProvider.upstash, ⟨0, 4, 0, 100⟩⟩ CacheProvider.azure
      (by decide) (by decide)).1,
   (healthStatus_closes_elapsed_breaker 70000
      ⟨true, true, RedisProvider.upstash, ⟨0, 4, 0, 100⟩⟩ CacheProvider.azure
      (by decide) (by decide)).2.1⟩

/-! ## Concrete failover scenarios -/

/-- C6: with a fresh breaker, the primary always failing and the
secondary healthy, `set("x", \x7bn: 42\x7d, ttl=10)` then `get("x")`
both succeed end-to-end, the returned value is the original object,
the primary's failure counter has increased by exactly 2 (one per
operation) and the secondary's counter is still 0. -/
theorem failover_transparency :
    c6Set.fst = Except.ok "OK"
    ∧ c6Set.2.1.failures.upstash = 1
    ∧ c6Get.fst = Except.ok (some (RVal.obj [("n", RVal.num 42)]))
    ∧ c6Get.2.1.failures.upstash = 2
    ∧ c6Get.2.1.failures.azure = 0 :=
  ⟨rfl, rfl, rfl, rfl, rfl⟩

/-! ## Outcomes when no provider is usable -/

theorem isAvail_azure_fst_congr (now : Nat) (f g : FailureTracker)
    (h1 : g.azure = f.azure) (h2 : g.lastAzureFailure = f.lastAzureFailure) :
    (isProviderAvailable now CacheProvider.azure g).fst
      = (isProviderAvailable now CacheProvider.azure f).fst := by
  rw [isAvail_fst, isAvail_fst]
  show (decide (g.azure < MAX_FAILURES)
      || decide (FAILURE_RESET_TIME < now - g.lastAzureFailure))
    = (decide (f.azure < MAX_FAILURES)
      || decide (FAILURE_RESET_TIME < now - f.lastAzureFailure))
  rw [h1, h2]

theorem ugetAzure_outage (now : Nat) (w : CacheWorld) (s : RedisState) (k : String) (f : FailureTracker) (t : List DriverCall) 
    (ha2 : s.azureConfigured = false
      ∨ (isProviderAvailable now CacheProvider.azure f).fst = false
      ∨ w.azure.failing = true) :
    (ugetAzure now w s k f t).fst = Except.ok none := by
  unfold ugetAzure
  dsimp only
  rcases ha2 with h | h | h
  · simp [h]
  · by_cases hc : s.azureConfigured <;> simp [h, hc]
  · by_cases hc : s.azureConfigured
    · cases hav : (isProviderAvailable now CacheProvider.azure f).fst <;> simp [h, hc, hav]
    · simp [hc]

theorem uget_outage (now : Nat) (w : CacheWorld) (s : RedisState) (k : String) 
    (hu : s.upstashConfigured = false
      ∨ (isProviderAvailable now CacheProvider.upstash s.failures).fst = false
      ∨ w.upstash.failing = true)
    (ha : s.azureConfigured = false
      ∨ (isProviderAvailable now CacheProvider.azure s.failures).fst = false
      ∨ w.azure.failing = true) :
    (uget now w s k).fst = Except.ok none := by
  have haz : ∀ (f : FailureTracker) (t : List DriverCall),
      (isProviderAvailable now CacheProvider.azure f).fst
        = (isProviderAvailable now CacheProvider.azure s.failures).fst →
      (ugetAzure now w s k f t).fst = Except.ok none := by
    intro f t hf
    apply ugetAzure_outage
    rcases ha with h | h | h
    · exact Or.inl h
    · exact Or.inr (Or.inl (hf.trans h))
    · exact Or.inr (Or.inr h)
  unfold uget
  dsimp only
  by_cases hc : s.upstashConfigured
  · cases hav : (isProviderAvailable now CacheProvider.upstash s.failures).fst
    · simp only [hc, hav]
      rw [isAvail_snd_of_false now CacheProvider.upstash s.failures hav]
      simp only [Bool.false_eq_true, if_false, if_true]
      exact haz s.failures [] rfl
    · have hf2 : w.upstash.failing = true := by
        rcases hu with h | h | h
        · rw [h] at hc
          exact Bool.noConfusion hc
        · rw [h] at hav
          exact Bool.noConfusion hav
        · exact h
      simp only [hc, hav, hf2, if_true]
      apply haz
      apply isAvail_azure_fst_congr
      · show (isProviderAvailable now CacheProvider.upstash s.failures).snd.azure
          = s.failures.azure
        exact (isAvail_upstash_snd_azure_fields now s.failures).1
      · show (isProviderAvailable now CacheProvider.upstash s.failures).snd.lastAzureFailure
          = s.failures.lastAzureFailure
        exact (isAvail_upstash_snd_azure_fields now s.failures).2
  · simp only [hc]
    simp only [Bool.false_eq_true, if_false]
    exact haz s.failures [] rfl

theorem udelAzure_outage (now : Nat) (w : CacheWorld) (s : RedisState) (key : List String) (f : FailureTracker) 
    (ha2 : s.azureConfigured = false
      ∨ (isProviderAvailable now CacheProvider.azure f).fst = false
      ∨ w.azure.failing = true) :
    (udelAzure now w s key f).fst = Except.ok 0 := by
  unfold udelAzure
  dsimp only
  rcases ha2 with h | h | h
  · simp [h]
  · by_cases hc : s.azureConfigured <;> simp [h, hc]
  · by_cases hc : s.azureConfigured
    · cases hav : (isProviderAvailable now CacheProvider.azure f).fst <;> simp [h, hc, hav]
    · simp [hc]

theorem udel_outage (now : Nat) (w : CacheWorld) (s : RedisState) (key : List String) 
    (hu : s.upstashConfigured = false
      ∨ (isProviderAvailable now CacheProvider.upstash s.failures).fst = false
      ∨ w.upstash.failing = true)
    (ha : s.azureConfigured = false
      ∨ (isProviderAvailable now CacheProvider.azure s.failures).fst = false
      ∨ w.azure.failing = true) :
    (udel now w s key).fst = Except.ok 0 := by
  have haz : ∀ (f : FailureTracker),
      (isProviderAvailable now CacheProvider.azure f).fst
        = (isProviderAvailable now CacheProvider.azure s.failures).fst →
      (udelAzure now w s key f).fst = Except.ok 0 := by
    intro f hf
    apply udelAzure_outage
    rcases ha with h | h | h
    · exact Or.inl h
    · exact Or.inr (Or.inl (hf.trans h))
    · exact Or.inr (Or.inr h)
  unfold udel
  dsimp only
  by_cases hc : s.upstashConfigured
  · cases hav : (isProviderAvailable now CacheProvider.upstash s.failures).fst
    · simp only [hc, hav]
      rw [isAvail_snd_of_false now CacheProvider.upstash s.failures hav]
      simp only [Bool.false_eq_true, if_false, if_true]
      exact haz s.failures rfl
    · have hf2 : w.upstash.failing = true := by
        rcases hu with h | h | h
        · rw [h] at hc
          exact Bool.noConfusion hc
        · rw [h] at hav
          exact Bool.noConfusion hav
        · exact h
      simp only [hc, hav, hf2, if_true]
      apply haz
      apply isAvail_azure_fst_congr
      · show (isProviderAvailable now CacheProvider.upstash s.failures).snd.azure
          = s.failures.azure
        exact (isAvail_upstash_snd_azure_fields now s.failures).1
      · show (isProviderAvailable now CacheProvider.upstash s.failures).snd.lastAzureFailure
          = s.failures.lastAzureFailure
        exact (isAvail_upstash_snd_azure_fields now s.failures).2
  · simp only [hc]
    simp only [Bool.false_eq_true, if_false]
    exact haz s.failures rfl

theorem uincrAzure_outage (now : Nat) (w : CacheWorld) (s : RedisState) (k : String) (f : FailureTracker) 
    (ha2 : s.azureConfigured = false
      ∨ (isProviderAvailable now CacheProvider.azure f).fst = false
      ∨ w.azure.failing = true) :
    (uincrAzure now w s k f).fst = Except.ok 0 := by
  unfold uincrAzure
  dsimp only
  rcases ha2 with h | h | h
  · simp [h]
  · by_cases hc : s.azureConfigured <;> simp [h, hc]
  · by_cases hc : s.azureConfigured
    · cases hav : (isProviderAvailable now CacheProvider.azure f).fst <;> simp [h, hc, hav]
    · simp [hc]

theorem uincr_outage (now : Nat) (w : CacheWorld) (s : RedisState) (k : String) 
    (hu : s.upstashConfigured = false
      ∨ (isProviderAvailable now CacheProvider.upstash s.failures).fst = false
      ∨ w.upstash.failing = true)
    (ha : s.azureConfigured = false
      ∨ (isProviderAvailable now CacheProvider.azure s.failures).fst = false
      ∨ w.azure.failing = true) :
    (uincr now w s k).fst = Except.ok 0 := by
  have haz : ∀ (f : FailureTracker),
      (isProviderAvailable now CacheProvider.azure f).fst
        = (isProviderAvailable now CacheProvider.azure s.failures).fst →
      (uincrAzure now w s k f).fst = Except.ok 0 := by
    intro f hf
    apply uincrAzure_outage
    rcases ha with h | h | h
    · exact Or.inl h
    · exact Or.inr (Or.inl (hf.trans h))
    · exact Or.inr (Or.inr h)
  unfold uincr
  dsimp only
  by_cases hc : s.upstashConfigured
  · cases hav : (isProviderAvailable now CacheProvider.upstash s.failures).fst
    · simp only [hc, hav]
      rw [isAvail_snd_of_false now CacheProvider.upstash s.failures hav]
      simp only [Bool.false_eq_true, if_false, if_true]
      exact haz s.failures rfl
    · have hf2 : w.upstash.failing = true := by
        rcases hu with h | h | h
        · rw [h] at hc
          exact Bool.noConfusion hc
        · rw [h] at hav
          exact Bool.noConfusion hav
        · exact h
      simp only [hc, hav, hf2, if_true]
      apply haz
      apply isAvail_azure_fst_congr
      · show (isProviderAvailable now CacheProvider.upstash s.failures).snd.azure
          = s.failures.azure
        exact (isAvail_upstash_snd_azure_fields now s.failures).1
      · show (isProviderAvailable now CacheProvider.upstash s.failures).snd.lastAzureFailure
          = s.failures.lastAzureFailure
        exact (isAvail_upstash_snd_azure_fields now s.failures).2
  · simp only [hc]
    simp only [Bool.false_eq_true, if_false]
    exact haz s.failures rfl

theorem uexpireAzure_outage (now : Nat) (w : CacheWorld) (s : RedisState) (k : String) (secs : Nat) (f : FailureTracker) 
    (ha2 : s.azureConfigured = false
      ∨ (isProviderAvailable now CacheProvider.azure f).fst = false
      ∨ w.azure.failing = true) :
    (uexpireAzure now w s k secs f).fst = Except.ok 0 := by
  unfold uexpireAzure
  dsimp only
  rcases ha2 with h | h | h
  · simp [h]
  · by_cases hc : s.azureConfigured <;> simp [h, hc]
  · by_cases hc : s.azureConfigured
    · cases hav : (isProviderAvailable now CacheProvider.azure f).fst <;> simp [h, hc, hav]
    · simp [hc]

theorem uexpire_outage (now : Nat) (w : CacheWorld) (s : RedisState) (k : String) (secs : Nat) 
    (hu : s.upstashConfigured = false
      ∨ (isProviderAvailable now CacheProvider.upstash s.failures).fst = false
      ∨ w.upstash.failing = true)
    (ha : s.azureConfigured = false
      ∨ (isProviderAvailable now CacheProvider.azure s.failures).fst = false
      ∨ w.azure.failing = true) :
    (uexpire now w s k secs).fst = Except.ok 0 := by
  have haz : ∀ (f : FailureTracker),
      (isProviderAvailable now CacheProvider.azure f).fst
        = (isProviderAvailable now CacheProvider.azure s.failures).fst →
      (uexpireAzure now w s k secs f).fst = Except.ok 0 := by
    intro f hf
    apply uexpireAzure_outage
    rcases ha with h | h | h
    · exact Or.inl h
    · exact Or.inr (Or.inl (hf.trans h))
    · exact Or.inr (Or.inr h)
  unfold uexpire
  dsimp only
  by_cases hc : s.upstashConfigured
  · cases hav : (isProviderAvailable now CacheProvider.upstash s.failures).fst
    · simp only [hc, hav]
      rw [isAvail_snd_of_false now CacheProvider.upstash s.failures hav]
      simp only [Bool.false_eq_true, if_false, if_true]
      exact haz s.failures rfl
    · have hf2 : w.upstash.failing = true := by
        rcases hu with h | h | h
        · rw [h] at hc
          exact Bool.noConfusion hc
        · rw [h] at hav
          exact Bool.noConfusion hav
        · exact h
      simp only [hc, hav, hf2, if_true]
      apply haz
      apply isAvail_azure_fst_congr
      · show (isProviderAvailable now CacheProvider.upstash s.failures).snd.azure
          = s.failures.azure
        exact (isAvail_upstash_snd_azure_fields now s.failures).1
      · show (isProviderAvailable now CacheProvider.upstash s.failures).snd.lastAzureFailure
          = s.failures.lastAzureFailure
        exact (isAvail_upstash_snd_azure_fields now s.failures).2
  · simp only [hc]
    simp only [Bool.false_eq_true, if_false]
    exact haz s.failures rfl

theorem uttlAzure_outage (now : Nat) (w : CacheWorld) (s : RedisState) (k : String) (f : FailureTracker) 
    (ha2 : s.azureConfigured = false
      ∨ (isProviderAvailable now CacheProvider.azure f).fst = false
      ∨ w.azure.failing = true) :
    (uttlAzure now w s k f).fst = Except.ok (-1) := by
  unfold uttlAzure
  dsimp only
  rcases ha2 with h | h | h
  · simp [h]
  · by_cases hc : s.azureConfigured <;> simp [h, hc]
  · by_cases hc : s.azureConfigured
    · cases hav : (isProviderAvailable now CacheProvider.azure f).fst <;> simp [h, hc, hav]
    · simp [hc]

theorem uttl_outage (now : Nat) (w : CacheWorld) (s : RedisState) (k : String) 
    (hu : s.upstashConfigured = false
      ∨ (isProviderAvailable now CacheProvider.upstash s.failures).fst = false
      ∨ w.upstash.failing = true)
    (ha : s.azureConfigured = false
      ∨ (isProviderAvailable now CacheProvider.azure s.failures).fst = false
      ∨ w.azure.failing = true) :
    (uttl now w s k).fst = Except.ok (-1) := by
  have haz : ∀ (f : FailureTracker),
      (isProviderAvailable now CacheProvider.azure f).fst
        = (isProviderAvailable now CacheProvider.azure s.failures).fst →
      (uttlAzure now w s k f).fst = Except.ok (-1) := by
    intro f hf
    apply uttlAzure_outage
    rcases ha with h | h | h
    · exact Or.inl h
    · exact Or.inr (Or.inl (hf.trans h))
    · exact Or.inr (Or.inr h)
  unfold uttl
  dsimp only
  by_cases hc : s.upstashConfigured
  · cases hav : (isProviderAvailable now CacheProvider.upstash s.failures).fst
    · simp only [hc, hav]
      rw [isAvail_snd_of_false now CacheProvider.upstash s.failures hav]
      simp only [Bool.false_eq_true, if_false, if_true]
      exact haz s.failures rfl
    · have hf2 : w.upstash.failing = true := by
        rcases hu with h | h | h
        · rw [h] at hc
          exact Bool.noConfusion hc
        · rw [h] at hav
          exact Bool.noConfusion hav
        · exact h
      simp only [hc, hav, hf2, if_true]
      apply haz
      apply isAvail_azure_fst_congr
      · show (isProviderAvailable now CacheProvider.upstash s.failures).snd.azure
          = s.failures.azure
        exact (isAvail_upstash_snd_azure_fields now s.failures).1
      · show (isProviderAvailable now CacheProvider.upstash s.failures).snd.lastAzureFailure
          = s.failures.lastAzureFailure
        exact (isAvail_upstash_snd_azure_fields now s.failures).2
  · simp only [hc]
    simp only [Bool.false_eq_true, if_false]
    exact haz s.failures rfl

theorem uexistsAzure_outage (now : Nat) (w : CacheWorld) (s : RedisState) (k : String) (f : FailureTracker) 
    (ha2 : s.azureConfigured = false
      ∨ (isProviderAvailable now CacheProvider.azure f).fst = false
      ∨ w.azure.failing = true) :
    (uexistsAzure now w s k f).fst = Except.ok 0 := by
  unfold uexistsAzure
  dsimp only
  rcases ha2 with h | h | h
  · simp [h]
  · by_cases hc : s.azureConfigured <;> simp [h, hc]
  · by_cases hc : s.azureConfigured
    · cases hav : (isProviderAvailable now CacheProvider.azure f).fst <;> simp [h, hc, hav]
    · simp [hc]

theorem uexists_outage (now : Nat) (w : CacheWorld) (s : RedisState) (k : String) 
    (hu : s.upstashConfigured = false
      ∨ (isProviderAvailable now CacheProvider.upstash s.failures).fst = false
      ∨ w.upstash.failing = true)
    (ha : s.azureConfigured = false
      ∨ (isProviderAvailable now CacheProvider.azure s.failures).fst = false
      ∨ w.azure.failing = true) :
    (uexists now w s k).fst = Except.ok 0 := by
  have haz : ∀ (f : FailureTracker),
      (isProviderAvailable now CacheProvider.azure f).fst
        = (isProviderAvailable now CacheProvider.azure s.failures).fst →
      (uexistsAzure now w s k f).fst = Except.ok 0 := by
    intro f hf
    apply uexistsAzure_outage
    rcases ha with h | h | h
    · exact Or.inl h
    · exact Or.inr (Or.inl (hf.trans h))
    · exact Or.inr (Or.inr h)
  unfold uexists
  dsimp only
  by_cases hc : s.upstashConfigured
  · cases hav : (isProviderAvailable now CacheProvider.upstash s.failures).fst
    · simp only [hc, hav]
      rw [isAvail_snd_of_false now CacheProvider.upstash s.failures hav]
      simp only [Bool.false_eq_true, if_false, if_true]
      exact haz s.failures rfl
    · have hf2 : w.upstash.failing = true := by
        rcases hu with h | h | h
        · rw [h] at hc
          exact Bool.noConfusion hc
        · rw [h] at hav
          exact Bool.noConfusion hav
        · exact h
      simp only [hc, hav, hf2, if_true]
      apply haz
      apply isAvail_azure_fst_congr
      · show (isProviderAvailable now CacheProvider.upstash s.failures).snd.azure
          = s.failures.azure
        exact (isAvail_upstash_snd_azure_fields now s.failures).1
      · show (isProviderAvailable now CacheProvider.upstash s.failures).snd.lastAzureFailure
          = s.failures.lastAzureFailure
        exact (isAvail_upstash_snd_azure_fields now s.failures).2
  · simp only [hc]
    simp only [Bool.false_eq_true, if_false]
    exact haz s.failures rfl

theorem usetexAzure_outage (now : Nat) (w : CacheWorld) (s : RedisState) (k : String) (secs : Nat) (v : RVal) (f : FailureTracker) (t : List DriverCall) 
    (ha2 : s.azureConfigured = false
      ∨ (isProviderAvailable now CacheProvider.azure f).fst = false
      ∨ w.azure.failing = true) :
    (usetexAzure now w s k secs v f t).fst = Except.ok "OK" := by
  unfold usetexAzure
  dsimp only
  rcases ha2 with h | h | h
  · simp [h]
  · by_cases hc : s.azureConfigured <;> simp [h, hc]
  · by_cases hc : s.azureConfigured
    · cases hav : (isProviderAvailable now CacheProvider.azure f).fst <;> simp [h, hc, hav]
    · simp [hc]

theorem usetex_outage (now : Nat) (w : CacheWorld) (s : RedisState) (k : String) (secs : Nat) (v : RVal) 
    (hu : s.upstashConfigured = false
      ∨ (isProviderAvailable now CacheProvider.upstash s.failures).fst = false
      ∨ w.upstash.failing = true)
    (ha : s.azureConfigured = false
      ∨ (isProviderAvailable now CacheProvider.azure s.failures).fst = false
      ∨ w.azure.failing = true) :
    (usetex now w s k secs v).fst = Except.ok "OK" := by
  have haz : ∀ (f : FailureTracker) (t : List DriverCall),
      (isProviderAvailable now CacheProvider.azure f).fst
        = (isProviderAvailable now CacheProvider.azure s.failures).fst →
      (usetexAzure now w s k secs v f t).fst = Except.ok "OK" := by
    intro f t hf
    apply usetexAzure_outage
    rcases ha with h | h | h
    · exact Or.inl h
    · exact Or.inr (Or.inl (hf.trans h))
    · exact Or.inr (Or.inr h)
  unfold usetex
  dsimp only
  by_cases hc : s.upstashConfigured
  · cases hav : (isProviderAvailable now CacheProvider.upstash s.failures).fst
    · simp only [hc, hav]
      rw [isAvail_snd_of_false now CacheProvider.upstash s.failures hav]
      simp only [Bool.false_eq_true, if_false, if_true]
      exact haz s.failures [] rfl
    · have hf2 : w.upstash.failing = true := by
        rcases hu with h | h | h
        · rw [h] at hc
          exact Bool.noConfusion hc
        · rw [h] at hav
          exact Bool.noConfusion hav
        · exact h
      simp only [hc, hav, hf2, if_true]
      apply haz
      apply isAvail_azure_fst_congr
      · show (isProviderAvailable now CacheProvider.upstash s.failures).snd.azure
          = s.failures.azure
        exact (isAvail_upstash_snd_azure_fields now s.failures).1
      · show (isProviderAvailable now CacheProvider.upstash s.failures).snd.lastAzureFailure
          = s.failures.lastAzureFailure
        exact (isAvail_upstash_snd_azure_fields now s.failures).2
  · simp only [hc]
    simp only [Bool.false_eq_true, if_false]
    exact haz s.failures [] rfl

theorem ukeysAzure_outage (now : Nat) (w : CacheWorld) (s : RedisState) (pattern : String) (f : FailureTracker) 
    (ha2 : s.azureConfigured = false
      ∨ (isProviderAvailable now CacheProvider.azure f).fst = false
      ∨ w.azure.failing = true) :
    (ukeysAzure now w s pattern f).fst = Except.ok [] := by
  unfold ukeysAzure
  dsimp only
  rcases ha2 with h | h | h
  · simp [h]
  · by_cases hc : s.azureConfigured <;> simp [h, hc]
  · by_cases hc : s.azureConfigured
    · cases hav : (isProviderAvailable now CacheProvider.azure f).fst <;> simp [h, hc, hav]
    · simp [hc]

theorem ukeys_outage (now : Nat) (w : CacheWorld) (s : RedisState) (pattern : String) 
    (hu : s.upstashConfigured = false
      ∨ (isProviderAvailable now CacheProvider.upstash s.failures).fst = false
      ∨ w.upstash.failing = true)
    (ha : s.azureConfigured = false
      ∨ (isProviderAvailable now CacheProvider.azure s.failures).fst = false
      ∨ w.azure.failing = true) :
    (ukeys now w s pattern).fst = Except.ok [] := by
  have haz : ∀ (f : FailureTracker),
      (isProviderAvailable now CacheProvider.azure f).fst
        = (isProviderAvailable now CacheProvider.azure s.failures).fst →
      (ukeysAzure now w s pattern f).fst = Except.ok [] := by
    intro f hf
    apply ukeysAzure_outage
    rcases ha with h | h | h
    · exact Or.inl h
    · exact Or.inr (Or.inl (hf.trans h))
    · exact Or.inr (Or.inr h)
  unfold ukeys
  dsimp only
  by_cases hc : s.upstashConfigured
  · cases hav : (isProviderAvailable now CacheProvider.upstash s.failures).fst
    · simp only [hc, hav]
      rw [isAvail_snd_of_false now CacheProvider.upstash s.failures hav]
      simp only [Bool.false_eq_true, if_false, if_true]
      exact haz s.failures rfl
    · have hf2 : w.upstash.failing = true := by
        rcases hu with h | h | h
        · rw [h] at hc
          exact Bool.noConfusion hc
        · rw [h] at hav
          exact Bool.noConfusion hav
        · exact h
      simp only [hc, hav, hf2, if_true]
      apply haz
      apply isAvail_azure_fst_congr
      · show (isProviderAvailable now CacheProvider.upstash s.failures).snd.azure
          = s.failures.azure
        exact (isAvail_upstash_snd_azure_fields now s.failures).1
      · show (isProviderAvailable now CacheProvider.upstash s.failures).snd.lastAzureFailure
          = s.failures.lastAzureFailure
        exact (isAvail_upstash_snd_azure_fields now s.failures).2
  · simp only [hc]
    simp only [Bool.false_eq_true, if_false]
    exact haz s.failures rfl

theorem usaddAzure_outage (now : Nat) (w : CacheWorld) (s : RedisState) (k : String) (members : List String) (f : FailureTracker) 
    (ha2 : s.azureConfigured = false
      ∨ (isProviderAvailable now CacheProvider.azure f).fst = false
      ∨ w.azure.failing = true) :
    (usaddAzure now w s k members f).fst = Except.ok 0 := by
  unfold usaddAzure
  dsimp only
  rcases ha2 with h | h | h
  · simp [h]
  · by_cases hc : s.azureConfigured <;> simp [h, hc]
  · by_cases hc : s.azureConfigured
    · cases hav : (isProviderAvailable now CacheProvider.azure f).fst <;> simp [h, hc, hav]
    · simp [hc]

theorem usadd_outage (now : Nat) (w : CacheWorld) (s : RedisState) (k : String) (members : List String) 
    (hu : s.upstashConfigured = false
      ∨ (isProviderAvailable now CacheProvider.upstash s.failures).fst = false
      ∨ w.upstash.failing = true)
    (ha : s.azureConfigured = false
      ∨ (isProviderAvailable now CacheProvider.azure s.failures).fst = false
      ∨ w.azure.failing = true) :
    (usadd now w s k members).fst = Except.ok 0 := by
  have haz : ∀ (f : FailureTracker),
      (isProviderAvailable now CacheProvider.azure f).fst
        = (isProviderAvailable now CacheProvider.azure s.failures).fst →
      (usaddAzure now w s k members f).fst = Except.ok 0 := by
    intro f hf
    apply usaddAzure_outage
    rcases ha with h | h | h
    · exact Or.inl h
    · exact Or.inr (Or.inl (hf.trans h))
    · exact Or.inr (Or.inr h)
  unfold usadd
  dsimp only
  by_cases hc : s.upstashConfigured
  · cases hav : (isProviderAvailable now CacheProvider.upstash s.failures).fst
    · simp only [hc, hav]
      rw [isAvail_snd_of_false now CacheProvider.upstash s.failures hav]
      simp only [Bool.false_eq_true, if_false, if_true]
      exact haz s.failures rfl
    · have hf2 : w.upstash.failing = true := by
        rcases hu with h | h | h
        · rw [h] at hc
          exact Bool.noConfusion hc
        · rw [h] at hav
          exact Bool.noConfusion hav
        · exact h
      simp only [hc, hav, hf2, if_true]
      apply haz
      apply isAvail_azure_fst_congr
      · show (isProviderAvailable now CacheProvider.upstash s.failures).snd.azure
          = s.failures.azure
        exact (isAvail_upstash_snd_azure_fields now s.failures).1
      · show (isProviderAvailable now CacheProvider.upstash s.failures).snd.lastAzureFailure
          = s.failures.lastAzureFailure
        exact (isAvail_upstash_snd_azure_fields now s.failures).2
  · simp only [hc]
    simp only [Bool.false_eq_true, if_false]
    exact haz s.failures rfl

theorem usremAzure_outage (now : Nat) (w : CacheWorld) (s : RedisState) (k : String) (members : List String) (f : FailureTracker) 
    (ha2 : s.azureConfigured = false
      ∨ (isProviderAvailable now CacheProvider.azure f).fst = false
      ∨ w.azure.failing = true) :
    (usremAzure now w s k members f).fst = Except.ok 0 := by
  unfold usremAzure
  dsimp only
  rcases ha2 with h | h | h
  · simp [h]
  · by_cases hc : s.azureConfigured <;> simp [h, hc]
  · by_cases hc : s.azureConfigured
    · cases hav : (isProviderAvailable now CacheProvider.azure f).fst <;> simp [h, hc, hav]
    · simp [hc]

theorem usrem_outage (now : Nat) (w : CacheWorld) (s : RedisState) (k : String) (members : List String) 
    (hu : s.upstashConfigured = false
      ∨ (isProviderAvailable now CacheProvider.upstash s.failures).fst = false
      ∨ w.upstash.failing = true)
    (ha : s.azureConfigured = false
      ∨ (isProviderAvailable now CacheProvider.azure s.failures).fst = false
      ∨ w.azure.failing = true) :
    (usrem now w s k members).fst = Except.ok 0 := by
  have haz : ∀ (f : FailureTracker),
      (isProviderAvailable now CacheProvider.azure f).fst
        = (isProviderAvailable now CacheProvider.azure s.failures).fst →
      (usremAzure now w s k members f).fst = Except.ok 0 := by
    intro f hf
    apply usremAzure_outage
    rcases ha with h | h | h
    · exact Or.inl h
    · exact Or.inr (Or.inl (hf.trans h))
    · exact Or.inr (Or.inr h)
  unfold usrem
  dsimp only
  by_cases hc : s.upstashConfigured
  · cases hav : (isProviderAvailable now CacheProvider.upstash s.failures).fst
    · simp only [hc, hav]
      rw [isAvail_snd_of_false now CacheProvider.upstash s.failures hav]
      simp only [Bool.false_eq_true, if_false, if_true]
      exact haz s.failures rfl
    · have hf2 : w.upstash.failing = true := by
        rcases hu with h | h | h
        · rw [h] at hc
          exact Bool.noConfusion hc
        · rw [h] at hav
          exact Bool.noConfusion hav
        · exact h
      simp only [hc, hav, hf2, if_true]
      apply haz
      apply isAvail_azure_fst_congr
      · show (isProviderAvailable now CacheProvider.upstash s.failures).snd.azure
          = s.failures.azure
        exact (isAvail_upstash_snd_azure_fields now s.failures).1
      · show (isProviderAvailable now CacheProvider.upstash s.failures).snd.lastAzureFailure
          = s.failures.lastAzureFailure
        exact (isAvail_upstash_snd_azure_fields now s.failures).2
  · simp only [hc]
    simp only [Bool.false_eq_true, if_false]
    exact haz s.failures rfl

theorem usetAzure_outage (now : Nat) (env : Env) (w : CacheWorld) (s : RedisState) (k : String) (v : RVal) (ex : Option Nat) (f : FailureTracker) (t : List DriverCall) 
    (ha2 : s.azureConfigured = false
      ∨ (isProviderAvailable now CacheProvider.azure f).fst = false
      ∨ w.azure.failing = true) :
    (usetAzure now env w s k v ex f t).fst = (match env with | Env.production => Except.error CacheErr.redisUnavailable | Env.development => Except.ok "OK") := by
  cases env with
  | production =>
    unfold usetAzure usetFallback
    dsimp only
    rcases ha2 with h | h | h
    · simp [h]
    · by_cases hc : s.azureConfigured <;> simp [h, hc]
    · by_cases hc : s.azureConfigured
      · cases hav : (isProviderAvailable now CacheProvider.azure f).fst <;> simp [h, hc, hav]
      · simp [hc]
  | development =>
    unfold usetAzure usetFallback
    dsimp only
    rcases ha2 with h | h | h
    · simp [h]
    · by_cases hc : s.azureConfigured <;> simp [h, hc]
    · by_cases hc : s.azureConfigured
      · cases hav : (isProviderAvailable now CacheProvider.azure f).fst <;> simp [h, hc, hav]
      · simp [hc]

theorem uset_outage (now : Nat) (env : Env) (w : CacheWorld) (s : RedisState) (k : String) (v : RVal) (ex : Option Nat) 
    (hu : s.upstashConfigured = false
      ∨ (isProviderAvailable now CacheProvider.upstash s.failures).fst = false
      ∨ w.upstash.failing = true)
    (ha : s.azureConfigured = false
      ∨ (isProviderAvailable now CacheProvider.azure s.failures).fst = false
      ∨ w.azure.failing = true) :
    (uset now env w s k v ex).fst = (match env with | Env.production => Except.error CacheErr.redisUnavailable | Env.development => Except.ok "OK") := by
  have haz : ∀ (f : FailureTracker) (t : List DriverCall),
      (isProviderAvailable now CacheProvider.azure f).fst
        = (isProviderAvailable now CacheProvider.azure s.failures).fst →
      (usetAzure now env w s k v ex f t).fst = (match env with | Env.production => Except.error CacheErr.redisUnavailable | Env.development => Except.ok "OK") := by
    intro f t hf
    apply usetAzure_outage
    rcases ha with h | h | h
    · exact Or.inl h
    · exact Or.inr (Or.inl (hf.trans h))
    · exact Or.inr (Or.inr h)
  unfold uset
  dsimp only
  by_cases hc : s.upstashConfigured
  · cases hav : (isProviderAvailable now CacheProvider.upstash s.failures).fst
    · simp only [hc, hav]
      rw [isAvail_snd_of_false now CacheProvider.upstash s.failures hav]
      simp only [Bool.false_eq_true, if_false, if_true]
      exact haz s.failures [] rfl
    · have hf2 : w.upstash.failing = true := by
        rcases hu with h | h | h
        · rw [h] at hc
          exact Bool.noConfusion hc
        · rw [h] at hav
          exact Bool.noConfusion hav
        · exact h
      simp only [hc, hav, hf2, if_true]
      apply haz
      apply isAvail_azure_fst_congr
      · show (isProviderAvailable now CacheProvider.upstash s.failures).snd.azure
          = s.failures.azure
        exact (isAvail_upstash_snd_azure_fields now s.failures).1
      · show (isProviderAvailable now CacheProvider.upstash s.failures).snd.lastAzureFailure
          = s.failures.lastAzureFailure
        exact (isAvail_upstash_snd_azure_fields now s.failures).2
  · simp only [hc]
    simp only [Bool.false_eq_true, if_false]
    exact haz s.failures [] rfl

theorem uevalAzure_outage (now : Nat) (env : Env) (w : CacheWorld) (s : RedisState) (f : FailureTracker) 
    (ha2 : s.azureConfigured = false
      ∨ (isProviderAvailable now CacheProvider.azure f).fst = false
      ∨ w.azure.failing = true) :
    (uevalAzure now env w s f).fst = (match env with | Env.production => Except.error CacheErr.evalFailed | Env.development => Except.ok none) := by
  cases env with
  | production =>
    unfold uevalAzure
    dsimp only
    rcases ha2 with h | h | h
    · simp [h]
    · by_cases hc : s.azureConfigured <;> simp [h, hc]
    · by_cases hc : s.azureConfigured
      · cases hav : (isProviderAvailable now CacheProvider.azure f).fst <;> simp [h, hc, hav]
      · simp [hc]
  | development =>
    unfold uevalAzure
    dsimp only
    rcases ha2 with h | h | h
    · simp [h]
    · by_cases hc : s.azureConfigured <;> simp [h, hc]
    · by_cases hc : s.azureConfigured
      · cases hav : (isProviderAvailable now CacheProvider.azure f).fst <;> simp [h, hc, hav]
      · simp [hc]

theorem ueval_outage (now : Nat) (env : Env) (w : CacheWorld) (s : RedisState) 
    (hu : s.upstashConfigured = false
      ∨ (isProviderAvailable now CacheProvider.upstash s.failures).fst = false
      ∨ w.upstash.failing = true)
    (ha : s.azureConfigured = false
      ∨ (isProviderAvailable now CacheProvider.azure s.failures).fst = false
      ∨ w.azure.failing = true) :
    (ueval now env w s).fst = (match env with | Env.production => Except.error CacheErr.evalFailed | Env.development => Except.ok none) := by
  have haz : ∀ (f : FailureTracker),
      (isProviderAvailable now CacheProvider.azure f).fst
        = (isProviderAvailable now CacheProvider.azure s.failures).fst →
      (uevalAzure now env w s f).fst = (match env with | Env.production => Except.error CacheErr.evalFailed | Env.development => Except.ok none) := by
    intro f hf
    apply uevalAzure_outage
    rcases ha with h | h | h
    · exact Or.inl h
    · exact Or.inr (Or.inl (hf.trans h))
    · exact Or.inr (Or.inr h)
  unfold ueval
  dsimp only
  by_cases hc : s.upstashConfigured
  · cases hav : (isProviderAvailable now CacheProvider.upstash s.failures).fst
    · simp only [hc, hav]
      rw [isAvail_snd_of_false now CacheProvider.upstash s.failures hav]
      simp only [Bool.false_eq_true, if_false, if_true]
      exact haz s.failures rfl
    · have hf2 : w.upstash.failing = true := by
        rcases hu with h | h | h
        · rw [h] at hc
          exact Bool.noConfusion hc
        · rw [h] at hav
          exact Bool.noConfusion hav
        · exact h
      simp only [hc, hav, hf2, if_true]
      apply haz
      apply isAvail_azure_fst_congr
      · show (isProviderAvailable now CacheProvider.upstash s.failures).snd.azure
          = s.failures.azure
        exact (isAvail_upstash_snd_azure_fields now s.failures).1
      · show (isProviderAvailable now CacheProvider.upstash s.failures).snd.lastAzureFailure
          = s.failures.lastAzureFailure
        exact (isAvail_upstash_snd_azure_fields now s.failures).2
  · simp only [hc]
    simp only [Bool.false_eq_true, if_false]
    exact haz s.failures rfl

/-- C1 counterexample: during a total outage in production
configuration, the writes `del`, `incr`, `expire`, `setex`, `sadd` and
`srem` do not throw — they return their no-op sentinels (the claim
says every write throws `BackendUnavailable` in production).  None of
these methods even consult `NODE_ENV`: the embedded operations take no
environment parameter because the source has no production check on
these paths (`unified-redis.ts` lines 403, 434, 465, 560, 660, 691). -/
theorem production_writes_no_throw_counterexample :
    (udel 0 outageWorld bothState ["k"]).fst = Except.ok 0
    ∧ (uincr 0 outageWorld bothState "k").fst = Except.ok 0
    ∧ (uexpire 0 outageWorld bothState "k" 5).fst = Except.ok 0
    ∧ (usetex 0 outageWorld bothState "k" 5 (RVal.str "v")).fst = Except.ok "OK"
    ∧ (usadd 0 outageWorld bothState "k" ["m"]).fst = Except.ok 0
    ∧ (usrem 0 outageWorld bothState "k" ["m"]).fst = Except.ok 0 :=
  ⟨rfl, rfl, rfl, rfl, rfl, rfl⟩

/-- C1 (amended): when each provider is unconfigured, breaker-blocked,
or failing, the reads `get`, `exists`, `ttl`, `keys` return their
neutral empty results (`null`, 0, -1, `[]`) without throwing; among
the writes only `set` and `eval` throw in production configuration
(returning `'OK'`/`null` respectively in development), while `del`,
`incr`, `expire`, `setex` and the set-mutations return their no-op
sentinels (0, 0, 0, `'OK'`, 0, 0) in every configuration without
throwing. -/
theorem cache_outage_asymmetry (now : Nat) (env : Env) (w : CacheWorld) (s : RedisState)
    (k pattern : String) (key members : List String) (secs : Nat) (v : RVal)
    (ex : Option Nat)
    (hu : s.upstashConfigured = false
      ∨ (isProviderAvailable now CacheProvider.upstash s.failures).fst = false
      ∨ w.upstash.failing = true)
    (ha : s.azureConfigured = false
      ∨ (isProviderAvailable now CacheProvider.azure s.failures).fst = false
      ∨ w.azure.failing = true) :
    (uget now w s k).fst = Except.ok none
    ∧ (uexists now w s k).fst = Except.ok 0
    ∧ (uttl now w s k).fst = Except.ok (-1)
    ∧ (ukeys now w s pattern).fst = Except.ok []
    ∧ (uset now env w s k v ex).fst
        = (match env with
           | Env.production => Except.error CacheErr.redisUnavailable
           | Env.development => Except.ok "OK")
    ∧ (ueval now env w s).fst
        = (match env with
           | Env.production => Except.error CacheErr.evalFailed
           | Env.development => Except.ok none)
    ∧ (udel now w s key).fst = Except.ok 0
    ∧ (uincr now w s k).fst = Except.ok 0
    ∧ (uexpire now w s k secs).fst = Except.ok 0
    ∧ (usetex now w s k secs v).fst = Except.ok "OK"
    ∧ (usadd now w s k members).fst = Except.ok 0
    ∧ (usrem now w s k members).fst = Except.ok 0 :=
  ⟨uget_outage now w s k hu ha, uexists_outage now w s k hu ha,
   uttl_outage now w s k hu ha, ukeys_outage now w s pattern hu ha,
   uset_outage now env w s k v ex hu ha, ueval_outage now env w s hu ha,
   udel_outage now w s key hu ha, uincr_outage now w s k hu ha,
   uexpire_outage now w s k secs hu ha, usetex_outage now w s k secs v hu ha,
   usadd_outage now w s k members hu ha, usrem_outage now w s k members hu ha⟩

/-- Witness for `cache_outage_asymmetry` during a concrete total
outage: the read degrades silently, `set` throws in production and
reports `'OK'` in development. -/
theorem cache_outage_asymmetry_witness :
    (uget 0 outageWorld bothState "k").fst = Except.ok none
    ∧ (uset 0 Env.production outageWorld bothState "k" (RVal.str "v") none).fst
        = Except.error CacheErr.redisUnavailable
    ∧ (uset 0 Env.development outageWorld bothState "k" (RVal.str "v") none).fst
        = Except.ok "OK" :=
  ⟨(cache_outage_asymmetry 0 Env.production outageWorld bothState "k" "p" ["k"] ["m"] 5
      (RVal.str "v") none (Or.inr (Or.inr rfl)) (Or.inr (Or.inr rfl))).1,
   (cache_outage_asymmetry 0 Env.production outageWorld bothState "k" "p" ["k"] ["m"] 5
      (RVal.str "v") none (Or.inr (Or.inr rfl)) (Or.inr (Or.inr rfl))).2.2.2.2.1,
   (cache_outage_asymmetry 0 Env.development outageWorld bothState "k" "p" ["k"] ["m"] 5
      (RVal.str "v") none (Or.inr (Or.inr rfl)) (Or.inr (Or.inr rfl))).2.2.2.2.1⟩

/-- Witness for `breaker_skip_then_fresh_allowance`: a concrete router
with a just-opened upstash breaker. -/
theorem breaker_skip_then_fresh_allowance_witness :
    (isProviderAvailable 1000 CacheProvider.upstash
        { upstash := 3, azure := 0, lastUpstashFailure := 0, lastAzureFailure := 0 }).fst
      = false
    ∧ uget 1000 c6World
          ⟨true, true, RedisProvider.upstash, ⟨3, 0, 0, 0⟩⟩ "k"
        = ugetAzure 1000 c6World
            ⟨true, true, RedisProvider.upstash, ⟨3, 0, 0, 0⟩⟩ "k" ⟨3, 0, 0, 0⟩ [] :=
  ⟨(breaker_skip_then_fresh_allowance 1000 60001 60001 1 2 3 Env.production c6World
      ⟨true, true, RedisProvider.upstash, ⟨3, 0, 0, 0⟩⟩ "k" (RVal.str "v") none
      (by decide) (by decide)).1,
   (breaker_skip_then_fresh_allowance 1000 60001 60001 1 2 3 Env.production c6World
      ⟨true, true, RedisProvider.upstash, ⟨3, 0, 0, 0⟩⟩ "k" (RVal.str "v") none
      (by decide) (by decide)).2.1⟩

/-! ## Round-tripping a value through set and get -/

/-- C3 counterexample: the string value `"42"` is stored verbatim by
the Azure write path (`typeof value === 'string'`) but the Azure read
path JSON-parses it back into the number `42`, which is not deep-equal
to the original string; and the empty-string value comes back as
`null` because of the falsy check `if (!value) return null`. -/
theorem roundtrip_counterexample :
    roundtripAzure "k" (RVal.str "42") = Except.ok (some (RVal.num 42))
    ∧ RVal.num 42 ≠ RVal.str "42"
    ∧ roundtripAzure "k2" (RVal.str "") = Except.ok none := by
  refine ⟨rfl, ?_, rfl⟩
  intro h
  exact RVal.noConfusion h

/-- C3 (amended): for every serializable value `v` (one that JSON
round-trips) that is not a string whose own text parses as JSON and
not the empty string, `set(k, v)` followed by `get(k)` returns a value
deep-equal to `v` whichever provider serves the two calls: end-to-end
when both are served by Azure, end-to-end when both are served by
Upstash, and — for the cross-provider cases — the text written by one
provider's path decodes back to `v` through the other's read path. -/
theorem set_get_roundtrip_amended (k : String) (v : RVal)
    (hser : jsonParse (jsonStringify v) = some v)
    (hstr : ∀ t, v = RVal.str t → jsonParse t = none)
    (hne : v ≠ RVal.str "") :
    roundtripAzure k v = Except.ok (some v)
    ∧ roundtripUpstash k v = Except.ok (some v)
    ∧ tryDecode (upEncode v) = v
    ∧ tryDecode (stringValue v) = v := by
  have hdec : tryDecode (stringValue v) = v := by
    cases v with
    | str t => simp [stringValue, tryDecode, hstr t rfl]
    | num n => simp [stringValue, tryDecode, hser]
    | bool b => simp [stringValue, tryDecode, hser]
    | jnull => simp [stringValue, tryDecode, hser]
    | obj fs => simp [stringValue, tryDecode, hser]
  have hup : upEncode v = stringValue v := by cases v <;> rfl
  have hsv : stringValue v ≠ "" := by
    intro h
    cases v with
    | str t => exact hne (congrArg RVal.str h)
    | num n =>
      have h2 : jsonStringify (RVal.num n) = "" := h
      rw [h2] at hser
      exact Option.noConfusion ((show jsonParse "" = none from rfl).symm.trans hser)
    | bool b =>
      have h2 : jsonStringify (RVal.bool b) = "" := h
      rw [h2] at hser
      exact Option.noConfusion ((show jsonParse "" = none from rfl).symm.trans hser)
    | jnull =>
      have h2 : jsonStringify RVal.jnull = "" := h
      rw [h2] at hser
      exact Option.noConfusion ((show jsonParse "" = none from rfl).symm.trans hser)
    | obj fs =>
      have h2 : jsonStringify (RVal.obj fs) = "" := h
      rw [h2] at hser
      exact Option.noConfusion ((show jsonParse "" = none from rfl).symm.trans hser)
  refine ⟨?_, ?_, by rw [hup]; exact hdec, hdec⟩
  · have hset : uset 0 Env.production bothHealthyWorld azOnlyState k v none
        = (Except.ok "OK", azOnlyState,
           { bothHealthyWorld with azure := azSet emptyClient k (stringValue v) },
           [DriverCall.azureSet k (stringValue v)]) := rfl
    have hlook : azGet (azSet emptyClient k (stringValue v)) k = some (stringValue v) := by
      simp [azGet, azSet, assocInsert, emptyClient, List.lookup]
    have hfail : (azSet emptyClient k (stringValue v)).failing = false := rfl
    unfold roundtripAzure
    dsimp only
    rw [hset]
    simp [uget, ugetAzure, azOnlyState, isProviderAvailable, FailureTracker.count,
      MAX_FAILURES, resetFailures, hfail, hlook, hsv, hdec]
  · have hset : uset 0 Env.production bothHealthyWorld upOnlyState k v none
        = (Except.ok "OK", upOnlyState,
           { bothHealthyWorld with upstash := upSet emptyClient k v },
           [DriverCall.upstashSet k v none]) := rfl
    have hlook : azGet (upSet emptyClient k v) k = some (upEncode v) := by
      simp [azGet, upSet, azSet, assocInsert, emptyClient, List.lookup]
    have hfail : (upSet emptyClient k v).failing = false := rfl
    unfold roundtripUpstash
    dsimp only
    rw [hset]
    simp [uget, upGet, upOnlyState, isProviderAvailable, FailureTracker.count,
      MAX_FAILURES, resetFailures, hfail, hlook, hup, hdec]

/-- Witness for `set_get_roundtrip_amended` at the serializable object
value from the spec's failover scenario. -/
theorem set_get_roundtrip_amended_witness :
    jsonParse (jsonStringify (RVal.obj [("n", RVal.num 42)]))
        = some (RVal.obj [("n", RVal.num 42)])
    ∧ roundtripAzure "k" (RVal.obj [("n", RVal.num 42)])
        = Except.ok (some (RVal.obj [("n", RVal.num 42)])) :=
  ⟨rfl, (set_get_roundtrip_amended "k" (RVal.obj [("n", RVal.num 42)]) rfl
      (fun _ h => RVal.noConfusion h) (fun h => RVal.noConfusion h)).1⟩

/-! ## Where serialization happens relative to the provider drivers -/

/-- C5 counterexample: the router passes the raw value — not JSON
text — to the primary (Upstash) driver: for the value `42` the issued
driver call is `upstashSet "k" (num 42)`, which is not the call the
claim predicts (`upstashSet "k" (str "42")`, the JSON-encoded text).
The JSON-encoding the router computes on line 328 is only ever sent to
the secondary driver; serialization for the primary happens inside the
external driver library, not before the value reaches the provider. -/
theorem primary_receives_raw_value_counterexample :
    (uset 0 Env.production bothHealthyWorld upOnlyState "k" (RVal.num 42) none).2.2.2
        = [DriverCall.upstashSet "k" (RVal.num 42) none]
    ∧ DriverCall.upstashSet "k" (RVal.num 42) none
        ≠ DriverCall.upstashSet "k" (RVal.str (stringValue (RVal.num 42))) none := by
  refine ⟨rfl, ?_⟩
  intro h
  injection h with h1 h2 h3
  exact RVal.noConfusion h2

/-- C5 (amended): the value is JSON-encoded to text before reaching
the secondary (Azure) provider unless it is already a string — both
`set` and `setWithExpiry` hand the Azure driver exactly
`stringValue v` — and the secondary read path JSON-decodes the
returned text with a verbatim fallback; on the primary (Upstash) path,
however, the raw value is handed to the driver, whose own envelope
(modelled from the spec) performs the encoding. -/
theorem serialization_boundary (env : Env) (k : String) (v : RVal) (secs : Nat)
    (sv : String) (hsv : sv ≠ "") :
    (uset 0 env bothHealthyWorld azOnlyState k v none).2.2.2
        = [DriverCall.azureSet k (stringValue v)]
    ∧ (uset 0 env bothHealthyWorld azOnlyState k v (some (secs + 1))).2.2.2
        = [DriverCall.azureSetex k (secs + 1) (stringValue v)]
    ∧ (usetex 0 bothHealthyWorld azOnlyState k secs v).2.2.2
        = [DriverCall.azureSetex k secs (stringValue v)]
    ∧ (uset 0 env bothHealthyWorld upOnlyState k v none).2.2.2
        = [DriverCall.upstashSet k v none]
    ∧ (usetex 0 bothHealthyWorld upOnlyState k secs v).2.2.2
        = [DriverCall.upstashSetex k secs v]
    ∧ (∀ t, stringValue (RVal.str t) = t)
    ∧ (uget 0 (azWorldWith k sv) azOnlyState k).fst = Except.ok (some (tryDecode sv)) := by
  refine ⟨rfl, rfl, rfl, rfl, rfl, fun _ => rfl, ?_⟩
  have hfail : (azWorldWith k sv).azure.failing = false := rfl
  have hlook : azGet (azWorldWith k sv).azure k = some sv := by
    simp [azWorldWith, azGet, emptyClient, List.lookup]
  simp [uget, ugetAzure, azOnlyState, isProviderAvailable, FailureTracker.count,
    MAX_FAILURES, resetFailures, hfail, hlook, hsv]

/-- Witness for `serialization_boundary` at a concrete stored text. -/
theorem serialization_boundary_witness :
    ("x" : String) ≠ ""
    ∧ (uget 0 (azWorldWith "k" "x") azOnlyState "k").fst
        = Except.ok (some (tryDecode "x")) :=
  ⟨by decide,
   (serialization_boundary Env.production "k" (RVal.num 1) 5 "x" (by decide)).2.2.2.2.2.2⟩
